import Mathlib

/-!
Verification of the fipers build-integration scripts.

The development shallowly embeds the three Python scripts
(`integrate_ios_library.py`, `integrate_macos_library.py`,
`integrate_android_library.py`).  Manifest documents are `List Char`; each
`re.sub` call is embedded as a left-to-right scan (`subAll`) driven by a
matcher that mirrors the concrete regular expression used at that call site.
Identifier generation (`hashlib.sha1(...).hexdigest()[:24].upper()`) is
embedded by a full executable SHA-1.  Filesystem behaviour is embedded as
pure functions over explicit state records that also emit an ordered event
trace (directory creation, file copies, file writes, printed messages).
-/

set_option maxRecDepth 100000

namespace Fipers

/-! ## Basic string machinery -/

/-- Boolean prefix test on character lists. -/
def isPrefixC : List Char → List Char → Bool
  | [], _ => true
  | _ :: _, [] => false
  | p :: ps, c :: cs => p == c && isPrefixC ps cs

/-- Python's substring test `pat in s`, scanning every suffix. -/
def containsC (pat : List Char) : List Char → Bool
  | [] => isPrefixC pat []
  | c :: cs => isPrefixC pat (c :: cs) || containsC pat cs

/-- Number of positions of `s` at which `pat` occurs. -/
def countC (pat : List Char) : List Char → Nat
  | [] => if isPrefixC pat [] then 1 else 0
  | c :: cs => (if isPrefixC pat (c :: cs) then 1 else 0) + countC pat cs

/-- Fuel-driven core of `subAll`; the fuel is consumed one unit per scanned
position, and `subAll` supplies `s.length` which suffices because every
matcher used here consumes at least one character. -/
def subAllFuel {α : Type} (m : List Char → Option (α × List Char))
    (f : α → List Char) : Nat → List Char → List Char
  | 0, s => s
  | _ + 1, [] => []
  | fuel + 1, c :: cs =>
    match m (c :: cs) with
    | some (mat, rest) => f mat ++ subAllFuel m f fuel rest
    | none => c :: subAllFuel m f fuel cs

/-- Embedding of `re.sub`: replace every leftmost, non-overlapping match of
`m` in the input, resuming the scan after each match. -/
def subAll {α : Type} (m : List Char → Option (α × List Char))
    (f : α → List Char) (s : List Char) : List Char :=
  subAllFuel m f s.length s

/-- True when the matcher succeeds at some position of the string. -/
def hasMatch {α : Type} (m : List Char → Option (α × List Char)) :
    List Char → Bool
  | [] => (m []).isSome
  | c :: cs => (m (c :: cs)).isSome || hasMatch m cs

/-! ## SHA-1 (for `generate_id`) -/

/-- Reduction modulo 2^32, the word size of SHA-1. -/
def w32 (n : Nat) : Nat := n % 4294967296

/-- Rotate a 32-bit word left by `k` bits. -/
def rotl (k n : Nat) : Nat :=
  let m := w32 n
  w32 (m <<< k) ||| (m >>> (32 - k))

/-- SHA-1 padding: append `0x80`, zero bytes to reach 56 mod 64, then the
bit length as eight big-endian bytes. -/
def sha1Pad (msg : List Nat) : List Nat :=
  let k := (119 - msg.length % 64) % 64
  let ml := msg.length * 8
  msg ++ [128] ++ List.replicate k 0 ++
    (List.range 8).map (fun i => (ml >>> (56 - 8 * i)) % 256)

/-- Split a byte list into 64-byte chunks (the input length is a sufficient
recursion bound since each step removes at least one element). -/
def chunksGo : Nat → List Nat → List (List Nat)
  | 0, _ => []
  | _ + 1, [] => []
  | n + 1, l => l.take 64 :: chunksGo n (l.drop 64)

/-- All 64-byte chunks of a byte list. -/
def chunks64 (l : List Nat) : List (List Nat) := chunksGo l.length l

/-- Big-endian 32-bit words of a byte list. -/
def toWords : List Nat → List Nat
  | b0 :: b1 :: b2 :: b3 :: r =>
    (b0 * 16777216 + b1 * 65536 + b2 * 256 + b3) :: toWords r
  | _ => []

/-- Message-schedule extension: append `rotl 1` of the xor of the words 3,
8, 14 and 16 positions back, `k` times. -/
def sha1ExtendGo : List Nat → Nat → List Nat
  | ws, 0 => ws
  | ws, k + 1 =>
    let n := ws.length
    sha1ExtendGo
      (ws ++ [rotl 1 (((ws.getD (n - 3) 0) ^^^ (ws.getD (n - 8) 0)) ^^^
        ((ws.getD (n - 14) 0) ^^^ (ws.getD (n - 16) 0)))]) k

/-- Round function of SHA-1. -/
def sha1F (i b c d : Nat) : Nat :=
  if i < 20 then (b &&& c) ||| ((4294967295 ^^^ b) &&& d)
  else if i < 40 then (b ^^^ c) ^^^ d
  else if i < 60 then ((b &&& c) ||| (b &&& d)) ||| (c &&& d)
  else (b ^^^ c) ^^^ d

/-- Round constants of SHA-1. -/
def sha1K (i : Nat) : Nat :=
  if i < 20 then 1518500249
  else if i < 40 then 1859775393
  else if i < 60 then 2400959708
  else 3395469782

/-- The 80 compression rounds, consuming the extended schedule. -/
def sha1Rounds : Nat → List Nat → Nat × Nat × Nat × Nat × Nat →
    Nat × Nat × Nat × Nat × Nat
  | _, [], st => st
  | i, w :: ws, (a, b, c, d, e) =>
    let t := w32 (rotl 5 a + sha1F i b c d + e + sha1K i + w)
    sha1Rounds (i + 1) ws (t, a, rotl 30 b, c, d)

/-- Process one 64-byte block. -/
def sha1Block (h : Nat × Nat × Nat × Nat × Nat) (block : List Nat) :
    Nat × Nat × Nat × Nat × Nat :=
  let ws := sha1ExtendGo (toWords block) 64
  let (a, b, c, d, e) := sha1Rounds 0 ws h
  let (h0, h1, h2, h3, h4) := h
  (w32 (h0 + a), w32 (h1 + b), w32 (h2 + c), w32 (h3 + d), w32 (h4 + e))

/-- SHA-1 of a byte list, as the five 32-bit state words. -/
def sha1 (msg : List Nat) : Nat × Nat × Nat × Nat × Nat :=
  (chunks64 (sha1Pad msg)).foldl sha1Block
    (1732584193, 4023233417, 2562383102, 271733878, 3285377520)

/-- Lowercase hexadecimal digit for a value below 16. -/
def hexDigitChar (n : Nat) : Char :=
  if n < 10 then Char.ofNat (48 + n) else Char.ofNat (87 + n)

/-- Eight lowercase hex digits of a 32-bit word, most significant first. -/
def hex8 (n : Nat) : List Char :=
  (List.range 8).map (fun i => hexDigitChar ((n >>> (28 - 4 * i)) % 16))

/-- Python's `hashlib.sha1(msg).hexdigest()`: 40 lowercase hex characters. -/
def sha1Hexdigest (msg : List Nat) : List Char :=
  let (h0, h1, h2, h3, h4) := sha1 msg
  hex8 h0 ++ hex8 h1 ++ hex8 h2 ++ hex8 h3 ++ hex8 h4

/-- Python's `str.upper` on a single character (ASCII range). -/
def upChar (c : Char) : Char :=
  if 97 ≤ c.toNat && c.toNat ≤ 122 then Char.ofNat (c.toNat - 32) else c

/-- UTF-8 bytes of one code point, as in Python's `str.encode()`. -/
def utf8Bytes (c : Nat) : List Nat :=
  if c < 128 then [c]
  else if c < 2048 then [192 + c / 64, 128 + c % 64]
  else if c < 65536 then [224 + c / 4096, 128 + c / 64 % 64, 128 + c % 64]
  else [240 + c / 262144, 128 + c / 4096 % 64, 128 + c / 64 % 64,
    128 + c % 64]

/-- UTF-8 encoding of a character list. -/
def utf8Encode (s : List Char) : List Nat :=
  (s.map (fun c => utf8Bytes c.toNat)).flatten

/-- From `integrate_ios_library.py` line 14:
`hashlib.sha1(text.encode()).hexdigest()[:24].upper()`. -/
def generate_id (text : List Char) : List Char :=
  ((sha1Hexdigest (utf8Encode text)).take 24).map upChar

/-! ## Text constants of the iOS patcher -/

/-- The artifact name `libfipers.a`. -/
def libName : List Char := "libfipers.a".toList

/-- Section marker consumed by the file-reference insertion. -/
def endFileRefMarker : List Char := "/* End PBXFileReference section */".toList

/-- Section marker consumed by the build-file insertion. -/
def endBuildFileMarker : List Char := "/* End PBXBuildFile section */".toList

/-- Literal head of every `OTHER_LDFLAGS` pattern. -/
def ldLit : List Char := "OTHER_LDFLAGS = (".toList

/-- The `-lfipers` token looked for by the re-run rewrite. -/
def lfipersTok : List Char := "-lfipers".toList

/-- The `-force_load` token. -/
def flWord : List Char := "-force_load".toList

/-- The bare word `libfipers` used by the settings-block checks. -/
def lfWord : List Char := "libfipers".toList

/-- The word `Frameworks` used by the settings-block check. -/
def fwWord : List Char := "Frameworks".toList

/-- The `LIBRARY_SEARCH_PATHS` key. -/
def lspWord : List Char := "LIBRARY_SEARCH_PATHS".toList

/-- The `OTHER_LDFLAGS` key. -/
def ldWord : List Char := "OTHER_LDFLAGS".toList

/-- Literal head of the build-settings block pattern. -/
def bsLit : List Char := "buildSettings = \x7b".toList

/-- Literal tail of the build-settings block pattern. -/
def closeBraceSemi : List Char := "\x7d;".toList

/-- Literal head of the Frameworks-group pattern (iOS). -/
def groupHeader : List Char :=
  "71A9A1607E036E391BA6A301 /* Frameworks */ = \x7b".toList

/-- Inner literal of the group pattern. -/
def childrenLit : List Char := "children = (".toList

/-- Literal head of the Frameworks build-phase pattern (iOS). -/
def phaseHeader : List Char :=
  "97C146EB1CF9000F007C117D /* Frameworks */ = \x7b".toList

/-- Inner literal of the build-phase pattern. -/
def filesLit : List Char := "files = (".toList

/-- Identifier for the file-reference record (line 85). -/
def file_ref_id : List Char := generate_id (libName ++ "_file_ref".toList)

/-- Identifier for the build-file record (line 86). -/
def build_file_id : List Char := generate_id (libName ++ "_build_file".toList)

/-- Replacement text inserted before the file-reference marker (line 90). -/
def fileRefEntry : List Char :=
  "\t\t".toList ++ file_ref_id ++
    (" /* libfipers.a */ = \x7bisa = PBXFileReference; " ++
      "lastKnownFileType = archive.ar; path = libfipers.a; " ++
      "sourceTree = \"<group>\"; \x7d;\n\t\t").toList

/-- Child entry appended to the Frameworks group (line 95). -/
def groupEntryAdd : List Char :=
  "\n\t\t\t\t".toList ++ file_ref_id ++ " /* libfipers.a */,\n".toList

/-- Replacement text inserted before the build-file marker (line 100). -/
def buildFileEntry : List Char :=
  "\t\t".toList ++ build_file_id ++
    " /* libfipers.a in Frameworks */ = \x7bisa = PBXBuildFile; fileRef = ".toList ++
    file_ref_id ++ " /* libfipers.a */; \x7d;\n\t\t".toList

/-- Member entry appended to the Frameworks build phase (line 105). -/
def phaseEntryAdd : List Char :=
  "\n\t\t\t\t".toList ++ build_file_id ++
    " /* libfipers.a in Frameworks */,\n".toList

/-- Canonical `OTHER_LDFLAGS` list substituted on a re-run (line 62). -/
def canonLdflags : List Char :=
  ("OTHER_LDFLAGS = (\n\t\t\t\t\t\"$(inherited)\",\n\t\t\t\t\t\"-force_load\"," ++
    "\n\t\t\t\t\t\"$(PROJECT_DIR)/Frameworks/libfipers.a\",\n\t\t\t\t)").toList

/-- Tail appended by `update_ldflags` after dropping the closing paren
(line 73). -/
def ldInsUpd : List Char :=
  ("\n\t\t\t\t\t\"-force_load\",\n\t\t\t\t\t\"$(PROJECT_DIR)/Frameworks/libfipers.a\"," ++
    "\n\t\t\t\t)").toList

/-- The `LIBRARY_SEARCH_PATHS` block appended when the key is absent
(line 124). -/
def lspAdd : List Char :=
  ("\n\t\t\t\tLIBRARY_SEARCH_PATHS = (\n\t\t\t\t\t\"$(inherited)\"," ++
    "\n\t\t\t\t\t\"$(PROJECT_DIR)/Frameworks\",\n\t\t\t\t);").toList

/-- The `OTHER_LDFLAGS` block appended when the key is absent (line 128). -/
def ldAdd : List Char :=
  ("\n\t\t\t\tOTHER_LDFLAGS = (\n\t\t\t\t\t\"$(inherited)\",\n\t\t\t\t\t\"-force_load\"," ++
    "\n\t\t\t\t\t\"$(PROJECT_DIR)/Frameworks/libfipers.a\",\n\t\t\t\t);").toList

/-- Tokens spliced into an existing `OTHER_LDFLAGS` list (line 134). -/
def ldIns : List Char :=
  ("\n\t\t\t\t\t\"-force_load\"," ++
    "\n\t\t\t\t\t\"$(PROJECT_DIR)/Frameworks/libfipers.a\",").toList

/-! ## Matchers mirroring the regular expressions -/

/-- Matcher for a literal pattern (the section-marker regexes). -/
def matchLit (pat : List Char) (s : List Char) :
    Option (List Char × List Char) :=
  if isPrefixC pat s then some (pat, s.drop pat.length) else none

/-- Matcher for `OTHER_LDFLAGS = \([^)]*` (line 133): the literal head
followed by the maximal run of characters other than a closing paren. -/
def matchLdfOpen (s : List Char) : Option (List Char × List Char) :=
  if isPrefixC ldLit s then
    let rest := s.drop ldLit.length
    let run := rest.takeWhile (fun c => c != ')')
    some (ldLit ++ run, rest.drop run.length)
  else none

/-- Matcher for `OTHER_LDFLAGS = \([^)]*\)` (line 75): as `matchLdfOpen`
but the run must be terminated by an actual closing paren. -/
def matchLdfClosed (s : List Char) : Option (List Char × List Char) :=
  if isPrefixC ldLit s then
    let rest := s.drop ldLit.length
    let run := rest.takeWhile (fun c => c != ')')
    match rest.dropWhile (fun c => c != ')') with
    | [] => none
    | c :: r2 => some (ldLit ++ run ++ [c], r2)
  else none

/-- Matcher for `OTHER_LDFLAGS = \([^)]*-lfipers[^)]*\)` (line 61): the
closed form whose paren-free run contains `-lfipers`. -/
def matchLdfLfipers (s : List Char) : Option (List Char × List Char) :=
  if isPrefixC ldLit s then
    let rest := s.drop ldLit.length
    let run := rest.takeWhile (fun c => c != ')')
    if containsC lfipersTok run then
      match rest.dropWhile (fun c => c != ')') with
      | [] => none
      | c :: r2 => some (ldLit ++ run ++ [c], r2)
    else none
  else none

/-- Positions of `s` (including its end) at which `pat` occurs. -/
def occIdxs (pat s : List Char) : List Nat :=
  (List.range (s.length + 1)).filter (fun i => isPrefixC pat (s.drop i))

/-- Greatest position at which `pat` occurs, as chosen by a greedy
backtracking `[^x]*` in front of the literal `pat`. -/
def lastOccIdx (pat s : List Char) : Option Nat := (occIdxs pat s).getLast?

/-- Matcher for `HEADER\{[^}]*INNER\([^)]*` (lines 94 and 104): the literal
header, a greedy brace-free run backtracking to the last occurrence of the
inner literal, then a greedy paren-free run. -/
def matchSection (header inner : List Char) (s : List Char) :
    Option (List Char × List Char) :=
  if isPrefixC header s then
    let rest := s.drop header.length
    let r1 := rest.takeWhile (fun c => c != '\x7d')
    match lastOccIdx inner r1 with
    | none => none
    | some j =>
      let after := rest.drop (j + inner.length)
      let run2 := after.takeWhile (fun c => c != ')')
      some (header ++ r1.take j ++ inner ++ run2, after.drop run2.length)
  else none

/-- Matcher for `(buildSettings = \{)([^}]*)(\};)` (line 112), returning
the middle group: the brace-free run, which must be followed by the
literal tail. -/
def matchBuildSettings (s : List Char) : Option (List Char × List Char) :=
  if isPrefixC bsLit s then
    let rest := s.drop bsLit.length
    let run := rest.takeWhile (fun c => c != '\x7d')
    let after := rest.dropWhile (fun c => c != '\x7d')
    if isPrefixC closeBraceSemi after then some (run, after.drop 2) else none
  else none

/-! ## The iOS patch operation on manifest text -/

/-- Step 2: insert a file-reference record before the end-of-section
marker (lines 89 to 91). -/
def insert_file_ref (c : List Char) : List Char :=
  subAll (matchLit endFileRefMarker) (fun m => fileRefEntry ++ m) c

/-- Step 4 in file order (lines 93 to 96): append the reference to the
children of the Frameworks group. -/
def insert_frameworks_group (c : List Char) : List Char :=
  subAll (matchSection groupHeader childrenLit) (fun m => m ++ groupEntryAdd) c

/-- Step 3: insert a build-file record before its end-of-section marker
(lines 98 to 101). -/
def insert_build_file (c : List Char) : List Char :=
  subAll (matchLit endBuildFileMarker) (fun m => buildFileEntry ++ m) c

/-- Step 5: append the build-file reference to the Frameworks build phase
(lines 103 to 106). -/
def insert_frameworks_phase (c : List Char) : List Char :=
  subAll (matchSection phaseHeader filesLit) (fun m => m ++ phaseEntryAdd) c

/-- Body of `add_library_settings` (lines 114 to 139) on the settings
block, producing the new block text. -/
def update_settings_block (block : List Char) : List Char :=
  if containsC fwWord block && containsC lfWord block then block
  else
    let n1 := if containsC lspWord block then block else block ++ lspAdd
    if !(containsC ldWord n1) then n1 ++ ldAdd
    else if !(containsC flWord n1) && !(containsC lfWord n1) then
      subAll matchLdfOpen (fun t => t ++ ldIns) n1
    else n1

/-- The replacement function `add_library_settings` (line 114), assembled
from the pattern groups; the matcher hands it the middle group. -/
def add_library_settings (block : List Char) : List Char :=
  bsLit ++ update_settings_block block ++ closeBraceSemi

/-- Step 6 (line 142): rewrite every build-settings block. -/
def apply_build_settings (c : List Char) : List Char :=
  subAll matchBuildSettings add_library_settings c

/-- Steps 2 to 6 of the fresh-integration branch (lines 84 to 142), in the
order of the source. -/
def patch_fresh (c : List Char) : List Char :=
  apply_build_settings
    (insert_frameworks_phase
      (insert_build_file (insert_frameworks_group (insert_file_ref c))))

/-- The replacement function `update_ldflags` (lines 69 to 74) of the
re-run branch, acting on a whole matched `OTHER_LDFLAGS` list. -/
def update_ldflags (ldflags : List Char) : List Char :=
  if !(containsC flWord ldflags) && !(containsC libName ldflags) then
    ldflags.dropLast ++ ldInsUpd
  else ldflags

/-- The re-run branch (lines 56 to 82): rewrite `-lfipers` lists to the
canonical form, then, when the document still lacks the force-load flag or
the artifact name, splice the tokens into every `OTHER_LDFLAGS` list. -/
def patch_already (content : List Char) : List Char :=
  let c1 := subAll matchLdfLfipers (fun _ => canonLdflags) content
  if !(containsC flWord c1) || !(containsC libName c1) then
    subAll matchLdfClosed update_ldflags c1
  else c1

/-- The whole text transformation of `integrate_library` (lines 55 to
146): a substring check for the artifact name selects the branch. -/
def patch_content (content : List Char) : List Char :=
  if containsC libName content then patch_already content
  else patch_fresh content

/-! ## Text constants and matchers of the macOS patcher -/

/-- The macOS artifact name. -/
def dylibName : List Char := "libfipers.dylib".toList

/-- Identifier computation as inlined in `integrate_macos_library.py`
(lines 173, 174, 237 and 238):
`hashlib.sha1(text.encode()).hexdigest()[:24].upper()`. -/
def macos_sha_id (text : List Char) : List Char :=
  ((sha1Hexdigest (utf8Encode text)).take 24).map upChar

/-- File-reference record for the macOS patcher (lines 178 and 242). -/
def macFileRefEntry (name frid : List Char) : List Char :=
  "\t\t".toList ++ frid ++ (" /* ").toList ++ name ++
    (" */ = \x7bisa = PBXFileReference; lastKnownFileType = " ++
      "\"compiled.mach-o.dylib\"; path = ../Frameworks/").toList ++ name ++
    ("; sourceTree = \"<group>\"; \x7d;\n\t\t").toList

/-- Group child entry for the macOS patcher (lines 184 and 248). -/
def macGroupAdd (name frid : List Char) : List Char :=
  "\n\t\t\t\t".toList ++ frid ++ (" /* ").toList ++ name ++ (" */,\n").toList

/-- Build-file record for the macOS patcher (lines 189 and 253). -/
def macBuildFileEntry (name frid bfid : List Char) : List Char :=
  "\t\t".toList ++ bfid ++ (" /* ").toList ++ name ++
    (" in Bundle Framework */ = \x7bisa = PBXBuildFile; fileRef = ").toList ++
    frid ++ (" /* ").toList ++ name ++ (" */; \x7d;\n\t\t").toList

/-- Bundle-Framework phase member entry (lines 194 and 258). -/
def macPhaseAdd (name bfid : List Char) : List Char :=
  "\n\t\t\t\t".toList ++ bfid ++ (" /* ").toList ++ name ++
    (" in Bundle Framework */,\n").toList

/-- Literal head of the Bundle Framework phase pattern (line 193). -/
def bundleHeader : List Char :=
  "33CC110E2044A8840003C045 /* Bundle Framework */ = \x7b".toList

/-- Literal pieces of the macOS Frameworks-group pattern
`(Frameworks.*= \{[^}]*children = \([^)]*)` (line 182). -/
def fwLit : List Char := "Frameworks".toList

/-- The `= {` literal inside the macOS group pattern. -/
def eqBraceLit : List Char := "= \x7b".toList

/-- Matcher for `Frameworks.*= \{[^}]*children = \([^)]*` with `DOTALL`:
the greedy `.*` backtracks from the last `= {` occurrence, and inside each
candidate the greedy brace-free run backtracks to the last `children = (`. -/
def matchMacGroup (s : List Char) : Option (List Char × List Char) :=
  if isPrefixC fwLit s then
    let rest := s.drop fwLit.length
    (occIdxs eqBraceLit rest).reverse.findSome? (fun j =>
      let rest2 := rest.drop (j + eqBraceLit.length)
      let r1 := rest2.takeWhile (fun c => c != '\x7d')
      match lastOccIdx childrenLit r1 with
      | none => none
      | some k =>
        let after := rest2.drop (k + childrenLit.length)
        let run2 := after.takeWhile (fun c => c != ')')
        some (fwLit ++ rest.take j ++ eqBraceLit ++ r1.take k ++ childrenLit ++
          run2, after.drop run2.length))
  else none

/-- Literal head of the ShellScript phase pattern (line 207). -/
def ssHeader : List Char :=
  "3399D490228B24CF009A79C7 /* ShellScript */ = \x7b".toList

/-- Inner literal of the ShellScript pattern. -/
def ssInner : List Char := "shellScript = \"".toList

/-- Closing literal of the ShellScript pattern. -/
def quoteSemi : List Char := "\";".toList

/-- Guard substring of the rpath-fix insertion (lines 218 and 222). -/
def fixTag : List Char := "Fix OpenSSL rpath".toList

/-- The shell fragment appended to the build phase (lines 208 to 217);
its first two characters are a literal backslash and `n`, since the
source spells `\\n` inside a non-raw triple-quoted string. -/
def rpathScript : List Char :=
  ("\\n# Fix OpenSSL rpath in app bundle after copy\n" ++
   "if [ -f \"$\x7bBUILT_PRODUCTS_DIR\x7d/$\x7bWRAPPER_NAME\x7d/Contents/Frameworks/libssl.3.dylib\" ]; then\n" ++
   "  install_name_tool -id \"@rpath/libssl.3.dylib\" \"$\x7bBUILT_PRODUCTS_DIR\x7d/$\x7bWRAPPER_NAME\x7d/Contents/Frameworks/libssl.3.dylib\" 2>/dev/null || true\n" ++
   "  install_name_tool -change \"/opt/homebrew/opt/openssl@3/lib/libcrypto.3.dylib\" \"@rpath/libcrypto.3.dylib\" \"$\x7bBUILT_PRODUCTS_DIR\x7d/$\x7bWRAPPER_NAME\x7d/Contents/Frameworks/libssl.3.dylib\" 2>/dev/null || true\n" ++
   "  install_name_tool -change \"/opt/homebrew/Cellar/openssl@3\" \"@rpath/libcrypto.3.dylib\" \"$\x7bBUILT_PRODUCTS_DIR\x7d/$\x7bWRAPPER_NAME\x7d/Contents/Frameworks/libssl.3.dylib\" 2>/dev/null || true\n" ++
   "  install_name_tool -change \"/usr/local/opt/openssl@3/lib/libcrypto.3.dylib\" \"@rpath/libcrypto.3.dylib\" \"$\x7bBUILT_PRODUCTS_DIR\x7d/$\x7bWRAPPER_NAME\x7d/Contents/Frameworks/libssl.3.dylib\" 2>/dev/null || true\n" ++
   "fi\n" ++
   "if [ -f \"$\x7bBUILT_PRODUCTS_DIR\x7d/$\x7bWRAPPER_NAME\x7d/Contents/Frameworks/libcrypto.3.dylib\" ]; then\n" ++
   "  install_name_tool -id \"@rpath/libcrypto.3.dylib\" \"$\x7bBUILT_PRODUCTS_DIR\x7d/$\x7bWRAPPER_NAME\x7d/Contents/Frameworks/libcrypto.3.dylib\" 2>/dev/null || true\n" ++
   "fi").toList

/-- Matcher for
`(3399D...\{[^}]*shellScript = ")([^"]*)(";)` (line 207), returning the
first two variable groups (the brace-free prefix and the script body). -/
def matchShellScript (s : List Char) :
    Option ((List Char × List Char) × List Char) :=
  if isPrefixC ssHeader s then
    let rest := s.drop ssHeader.length
    let r1 := rest.takeWhile (fun c => c != '\x7d')
    (occIdxs ssInner r1).reverse.findSome? (fun j =>
      let after := rest.drop (j + ssInner.length)
      let run := after.takeWhile (fun c => c != '\"')
      if isPrefixC quoteSemi (after.drop run.length) then
        some ((r1.take j, run), (after.drop run.length).drop 2)
      else none)
  else none

/-- The replacement function `add_rpath_fix` (lines 220 to 224). -/
def add_rpath_fix (g : List Char × List Char) : List Char :=
  let g1 := ssHeader ++ g.1 ++ ssInner
  if !(containsC fixTag g.2) then g1 ++ g.2 ++ rpathScript ++ quoteSemi
  else g1 ++ g.2 ++ quoteSemi

/-- The four record insertions of the macOS patcher (shared shape of lines
176 to 195 and 240 to 259), for a given artifact name. -/
def mac_insert_records (name content : List Char) : List Char :=
  let frid := macos_sha_id (name ++ ("_file_ref").toList)
  let bfid := macos_sha_id (name ++ ("_build_file").toList)
  let c1 := subAll (matchLit endFileRefMarker)
    (fun m => macFileRefEntry name frid ++ m) content
  let c2 :=
    if containsC fwWord c1 then
      subAll matchMacGroup (fun m => m ++ macGroupAdd name frid) c1
    else c1
  let c3 := subAll (matchLit endBuildFileMarker)
    (fun m => macBuildFileEntry name frid bfid ++ m) c2
  subAll (matchSection bundleHeader filesLit)
    (fun m => m ++ macPhaseAdd name bfid) c3

/-- One iteration of the OpenSSL loop (lines 171 to 195): skip when the
name is already present. -/
def mac_add_openssl (name content : List Char) : List Char :=
  if containsC name content then content else mac_insert_records name content

/-- Both OpenSSL libraries, in loop order (line 170). -/
def macos_openssl_patch (content : List Char) : List Char :=
  mac_add_openssl ("libcrypto.3.dylib").toList
    (mac_add_openssl ("libssl.3.dylib").toList content)

/-! ## Filesystem models -/

/-- Ordered filesystem and console events emitted by a run. -/
inductive Ev where
  | mkdirP (path : String)
  | copyFile (src dst : String)
  | deleteFile (path : String)
  | writeFile (path : String) (content : List Char)
  | subprocRun (cmd : String)
  | message (text : String)
deriving DecidableEq

/-- Path constants of the iOS script. -/
def xcodeProjPath : String := "ios/Runner.xcodeproj/project.pbxproj"

/-- The backup destination (line 51): the manifest path with a fixed
`.backup` suffix appended. -/
def backupPath : String := xcodeProjPath ++ ".backup"

/-- Destination of the artifact copy. -/
def destLibPath : String := "ios/Frameworks/libfipers.a"

/-- The Frameworks directory created by the script. -/
def frameworksDirPath : String := "ios/Frameworks"

/-- Abstract filesystem state seen by the iOS script.  `now` is a wall
clock the script never reads. -/
structure IosFs where
  iosDirExists : Bool
  manifest : Option (List Char)
  sourceLib : Option (List Char)
  frameworksDirExists : Bool
  destLib : Option (List Char)
  backup : Option (List Char)
  now : Nat
deriving DecidableEq

/-- The iOS `integrate_library` (lines 18 to 158): precondition checks,
artifact copy, backup, then the text patch, returning the new state, the
event trace and the Python return value. -/
def integrate_library (library_path : String) (fs : IosFs) :
    IosFs × List Ev × Bool :=
  if !fs.iosDirExists then
    (fs, [Ev.message ("Error: iOS directory not found")], false)
  else
    match fs.manifest with
    | none =>
      (fs, [Ev.message ("Error: Xcode project not found at " ++ xcodeProjPath)],
        false)
    | some content =>
      match fs.sourceLib with
      | none =>
        (fs, [Ev.message ("Error: Library not found at " ++ library_path)],
          false)
      | some lib =>
        let fs1 := { fs with
          frameworksDirExists := true
          destLib := some lib
          backup := some content }
        let evs1 := [Ev.mkdirP frameworksDirPath,
          Ev.copyFile library_path destLibPath,
          Ev.message ("✅ Copied library to " ++ destLibPath),
          Ev.copyFile xcodeProjPath backupPath,
          Ev.message ("✅ Created backup: " ++ backupPath)]
        if containsC libName content then
          let c := patch_already content
          ({ fs1 with manifest := some c },
            evs1 ++
              [Ev.message ("⚠️  Library already integrated, updating link flags to use -force_load..."),
               Ev.writeFile xcodeProjPath c,
               Ev.message ("✅ Updated link flags to use -force_load")],
            true)
        else
          let c := patch_fresh content
          ({ fs1 with manifest := some c },
            evs1 ++
              [Ev.writeFile xcodeProjPath c,
               Ev.message ("✅ Successfully integrated libfipers.a into Xcode project!")],
            true)

/-- Inputs of the iOS `main` (lines 160 to 213). -/
structure IosEnv where
  cwdIsFlutterIos : Bool
  exampleIsFlutter : Bool
  buildScriptExists : Bool
  buildSucceeds : Bool
  builtLibExists : Bool
  fs : IosFs
deriving DecidableEq

/-- The iOS `main`: project detection, the external build step, artifact
check, then `integrate_library`; the first component is the exit status. -/
def ios_main (env : IosEnv) : Nat × List Ev :=
  if !env.cwdIsFlutterIos && !env.exampleIsFlutter then
    (1, [Ev.message ("Error: This script must be run from a Flutter project root"),
         Ev.message ("Usage: Run from Flutter project root (e.g., fipers/example)")])
  else
    let evs0 := [Ev.message ("Using Flutter project: example"),
      Ev.message ("Building iOS library...")]
    let buildEvs :=
      if env.buildScriptExists then [Ev.subprocRun ("build.sh ios Release")]
      else [Ev.message ("Warning: build.sh not found, assuming library is already built")]
    if env.buildScriptExists && !env.buildSucceeds then
      (1, evs0 ++ buildEvs ++ [Ev.message ("Error building library: build failure output")])
    else if !env.builtLibExists then
      (1, evs0 ++ buildEvs ++
        [Ev.message ("Error: Library not found at fipers/ios/build/libfipers.a"),
         Ev.message ("Please build the library first: ./scripts/build.sh ios Release")])
    else
      let r := integrate_library ("fipers/ios/build/libfipers.a") env.fs
      ((if r.2.2 then 0 else 1), evs0 ++ buildEvs ++ r.2.1)

/-- Path constants of the macOS script. -/
def macXcodeProjPath : String := "macos/Runner.xcodeproj/project.pbxproj"

/-- The macOS backup destination (line 165). -/
def macBackupPath : String := macXcodeProjPath ++ ".backup"

/-- Destination of the macOS artifact copy. -/
def macDestLibPath : String := "macos/Frameworks/libfipers.dylib"

/-- Abstract filesystem state seen by the macOS script. -/
structure MacFs where
  macosDirExists : Bool
  sourceLib : Option (List Char)
  frameworksDirExists : Bool
  destLib : Option (List Char)
  brewSslExists : Bool
  brewCryptoExists : Bool
  localSslExists : Bool
  localCryptoExists : Bool
  destSsl : Bool
  destCrypto : Bool
  manifest : Option (List Char)
  backup : Option (List Char)
deriving DecidableEq

/-- Events of the macOS artifact copy (lines 29 to 38). -/
def macCopyEvs (library_path : String) (fs : MacFs) : List Ev :=
  [Ev.mkdirP ("macos/Frameworks")] ++
    (if fs.destLib.isSome then [Ev.deleteFile macDestLibPath] else []) ++
    [Ev.copyFile library_path macDestLibPath,
     Ev.message ("✅ Copied library to " ++ macDestLibPath)]

/-- Whether a libssl source is found (lines 42 to 52: the Homebrew pair
is used when its libssl exists, else the /usr/local pair). -/
def macSslAvail (fs : MacFs) : Bool :=
  if fs.brewSslExists then true else fs.localSslExists

/-- Whether a libcrypto source is found in the chosen pair. -/
def macCryptoAvail (fs : MacFs) : Bool :=
  if fs.brewSslExists then fs.brewCryptoExists else fs.localCryptoExists

/-- Events of the libssl copy iteration (lines 55 to 65). -/
def macSslEvs (fs : MacFs) : List Ev :=
  if macSslAvail fs then
    (if fs.destSsl then [Ev.deleteFile ("macos/Frameworks/libssl.3.dylib")]
     else []) ++
      [Ev.copyFile ("openssl@3/lib/libssl.3.dylib")
          ("macos/Frameworks/libssl.3.dylib"),
       Ev.message ("✅ Copied libssl.3.dylib to macos/Frameworks/libssl.3.dylib")]
  else [Ev.message ("⚠️  OpenSSL library not found at openssl@3/lib/libssl.3.dylib")]

/-- Events of the libcrypto copy iteration (lines 55 to 65). -/
def macCryptoEvs (fs : MacFs) : List Ev :=
  if macCryptoAvail fs then
    (if fs.destCrypto then
      [Ev.deleteFile ("macos/Frameworks/libcrypto.3.dylib")]
     else []) ++
      [Ev.copyFile ("openssl@3/lib/libcrypto.3.dylib")
          ("macos/Frameworks/libcrypto.3.dylib"),
       Ev.message ("✅ Copied libcrypto.3.dylib to macos/Frameworks/libcrypto.3.dylib")]
  else [Ev.message ("⚠️  OpenSSL library not found at openssl@3/lib/libcrypto.3.dylib")]

/-- The otool and install-name-tool section (lines 67 to 152): it only
invokes external tools under `check=False` inside `try`, so it cannot
abort and touches neither the manifest nor the backup; it is collapsed
into one subprocess event. -/
def macRpathEvs : List Ev :=
  [Ev.subprocRun ("otool / install_name_tool / codesign rpath fixes")]

/-- Events of the manifest backup (lines 164 to 167). -/
def macBackupEvs : List Ev :=
  [Ev.copyFile macXcodeProjPath macBackupPath,
   Ev.message ("✅ Created backup: " ++ macBackupPath)]

/-- The macOS `integrate_library` (lines 12 to 276). -/
def mac_integrate_library (library_path : String) (fs : MacFs) :
    MacFs × List Ev × Bool :=
  if !fs.macosDirExists then
    (fs, [Ev.message ("Error: macOS directory not found")], false)
  else
    match fs.sourceLib with
    | none =>
      (fs, [Ev.message ("Error: Library not found at " ++ library_path)], false)
    | some lib =>
      let evs1 := macCopyEvs library_path fs ++ macSslEvs fs ++
        macCryptoEvs fs ++ macRpathEvs
      let fs1 := { fs with
        frameworksDirExists := true
        destLib := some lib
        destSsl := fs.destSsl || macSslAvail fs
        destCrypto := fs.destCrypto || macCryptoAvail fs }
      match fs.manifest with
      | some content =>
        let c1 := macos_openssl_patch content
        if containsC dylibName c1 then
          let headEvs := [Ev.message ("⚠️  Library already in Xcode project, updating OpenSSL libraries..."),
            Ev.writeFile macXcodeProjPath c1,
            Ev.message ("✅ Added OpenSSL libraries to Xcode project")]
          if !(containsC fixTag c1) then
            let c2 := subAll matchShellScript add_rpath_fix c1
            ({ fs1 with manifest := some c2, backup := some content },
              evs1 ++ macBackupEvs ++ headEvs ++
                [Ev.writeFile macXcodeProjPath c2,
                 Ev.message ("✅ Added rpath fix script to build phase"),
                 Ev.message ("✅ Successfully integrated libfipers.dylib into macOS project!")],
              true)
          else
            ({ fs1 with manifest := some c1, backup := some content },
              evs1 ++ macBackupEvs ++ headEvs ++
                [Ev.message ("✅ Successfully integrated libfipers.dylib into macOS project!")],
              true)
        else
          let c2 := mac_insert_records dylibName c1
          ({ fs1 with manifest := some c2, backup := some content },
            evs1 ++ macBackupEvs ++
              [Ev.writeFile macXcodeProjPath c2,
               Ev.message ("✅ Added libfipers.dylib to Xcode project"),
               Ev.message ("✅ Successfully integrated libfipers.dylib into macOS project!")],
            true)
      | none =>
        (fs1, evs1 ++
          [Ev.message ("✅ Successfully integrated libfipers.dylib into macOS project!")],
          true)

/-- Inputs of the macOS `main` (lines 278 to 328). -/
structure MacEnv where
  cwdIsFlutterMacos : Bool
  exampleIsFlutter : Bool
  buildScriptExists : Bool
  buildSucceeds : Bool
  builtLibExists : Bool
  fs : MacFs
deriving DecidableEq

/-- The macOS `main`: identical structure to the iOS one. -/
def mac_main (env : MacEnv) : Nat × List Ev :=
  if !env.cwdIsFlutterMacos && !env.exampleIsFlutter then
    (1, [Ev.message ("Error: This script must be run from a Flutter project root"),
         Ev.message ("Usage: Run from Flutter project root (e.g., fipers/example)")])
  else
    let evs0 := [Ev.message ("Using Flutter project: example"),
      Ev.message ("Building macOS library...")]
    let buildEvs :=
      if env.buildScriptExists then [Ev.subprocRun ("build.sh macos Release")]
      else [Ev.message ("Warning: build.sh not found, assuming library is already built")]
    if env.buildScriptExists && !env.buildSucceeds then
      (1, evs0 ++ buildEvs ++ [Ev.message ("Error building library: build failure output")])
    else if !env.builtLibExists then
      (1, evs0 ++ buildEvs ++
        [Ev.message ("Error: Library not found at fipers/macos/build/libfipers.dylib"),
         Ev.message ("Please build the library first: ./scripts/build.sh macos Release")])
    else
      let r := mac_integrate_library ("fipers/macos/build/libfipers.dylib") env.fs
      ((if r.2.2 then 0 else 1), evs0 ++ buildEvs ++ r.2.1)

/-- Inputs of the Android script (`integrate_android_library.py`). -/
structure AndroidEnv where
  argvRoot : Option String
  detectedRoot : Option String
  fipersLibDartExists : Bool
  appBuildGradle : Option (List Char)
  pubspec : Option (List Char)
  cmakeExists : Bool
deriving DecidableEq

/-- `verify_cmake_integration` (lines 49 to 63): read-only checks on
`build.gradle.kts`. -/
def verify_cmake_integration (env : AndroidEnv) : Bool × List Ev :=
  match env.appBuildGradle with
  | none =>
    (false, [Ev.message ("❌ build.gradle.kts not found at android/app/build.gradle.kts")])
  | some content =>
    if !(containsC (("externalNativeBuild").toList) content) ||
        !(containsC (("cmake").toList) content) then
      (false, [Ev.message ("⚠️  CMake integration not found in build.gradle.kts"),
        Ev.message ("   The script will add it, but you may need to rebuild.")])
    else (true, [Ev.message ("✅ CMake integration found in build.gradle.kts")])

/-- `check_openssl_for_android` (lines 39 to 46): prints a notice only. -/
def check_openssl_for_android : Bool × List Ev :=
  (true, [Ev.message ("⚠️  Note: Android requires OpenSSL to be built separately."),
    Ev.message ("   The CMakeLists.txt will attempt to find OpenSSL."),
    Ev.message ("   If OpenSSL is not found, the build will fail with instructions.")])

/-- Warning printed when the fipers root cannot be used (lines 100 to
103); the function then returns normally. -/
def androidRootWarn : List Ev :=
  [Ev.message ("⚠️  Could not find fipers root with android/CMakeLists.txt"),
   Ev.message ("   Make sure you are running this from the correct directory.")]

/-- Closing sequence of a completed Android run (lines 105 to 117). -/
def android_tail (env : AndroidEnv) : List Ev :=
  [Ev.message ("📦 fipers root: fipers")] ++ check_openssl_for_android.2 ++
    (verify_cmake_integration env).2 ++
    [Ev.message ("✅ Android library integration check complete!"),
     Ev.message ("📝 Next steps:"),
     Ev.message ("   1. Ensure OpenSSL is built for Android (see README.md)"),
     Ev.message ("   2. Run: flutter build apk --debug"),
     Ev.message ("   3. The library should be automatically built and included in the APK")]

/-- Predicate selecting read-only events (console output). -/
def evReadOnly : Ev → Bool
  | Ev.message _ => true
  | _ => false

/-- True when no write to `mp` happens before a copy of `mp` to `bp`. -/
def backup_before_write (mp bp : String) : List Ev → Bool
  | [] => true
  | Ev.copyFile src dst :: rest =>
    if src == mp && dst == bp then true else backup_before_write mp bp rest
  | Ev.writeFile p _ :: rest =>
    if p == mp then false else backup_before_write mp bp rest
  | _ :: rest => backup_before_write mp bp rest

/-- Events that neither write the manifest nor create its backup. -/
def bbwNeutral (mp bp : String) : Ev → Bool
  | Ev.copyFile src dst => !(src == mp && dst == bp)
  | Ev.writeFile q _ => !(q == mp)
  | _ => true

/-- True when every `writeFile` event in the trace targets `path`. -/
def writesOnlyTo (path : String) : List Ev → Bool
  | [] => true
  | Ev.writeFile q _ :: rest => q == path && writesOnlyTo path rest
  | _ :: rest => writesOnlyTo path rest

/-- True when `pat` occurs at no position below `k`. -/
def litFreeBelow (pat s : List Char) (k : Nat) : Bool :=
  (List.range k).all (fun i => !(isPrefixC pat (s.drop i)))

/-- The Android `main` (lines 66 to 117); the first component is the exit
status. -/
def android_main (env : AndroidEnv) : Nat × List Ev :=
  let projectRoot :=
    match env.argvRoot with
    | some r => some r
    | none => env.detectedRoot
  match projectRoot with
  | none =>
    (1, [Ev.message ("❌ Error: Could not find Flutter project root (pubspec.yaml not found)"),
      Ev.message ("   Please run this script from your Flutter project directory"),
      Ev.message ("   or provide the project root as an argument.")])
  | some root =>
    let evs0 := [Ev.message ("📁 Flutter project root: " ++ root)]
    if env.fipersLibDartExists then
      if !env.cmakeExists then (0, evs0 ++ androidRootWarn)
      else (0, evs0 ++ android_tail env)
    else if env.appBuildGradle.isSome then
      match env.pubspec with
      | some pcontent =>
        if containsC (("fipers:").toList) pcontent then
          (0, evs0 ++
            [Ev.message ("ℹ️  fipers is a dependency. CMakeLists.txt should be configured in the package."),
             Ev.message ("   Make sure the fipers package includes Android CMakeLists.txt integration.")])
        else (0, evs0 ++ androidRootWarn)
      | none => (0, evs0 ++ androidRootWarn)
    else
      if !env.cmakeExists then (0, evs0 ++ androidRootWarn)
      else (0, evs0 ++ android_tail env)

/-! ## Concrete documents and states used by witnesses and
counterexamples -/

/-- Manifest whose only `OTHER_LDFLAGS` list holds a `-lfipers` token. -/
def lfipersDoc : List Char :=
  ("buildSettings = \x7b\n\tOTHER_LDFLAGS = (\n\t\t\"-lfipers\",\n\t);\n\x7d;").toList

/-- Manifest with one empty build-settings block. -/
def emptySettingsDoc : List Char :=
  ("buildSettings = \x7b\n\x7d;").toList

/-- Manifest whose settings block already lists `-force_load` for an
unrelated archive. -/
def foreignForceLoadDoc : List Char :=
  ("buildSettings = \x7b\n\tOTHER_LDFLAGS = (\n\t\t\"-force_load\"," ++
    "\n\t\t\"/x/libother.a\",\n\t);\n\x7d;").toList

/-- Manifest that contains none of the expected section markers. -/
def noMarkersDoc : List Char :=
  ("// placeholder project description without any marker").toList

/-- Manifest with the artifact name present and an `OTHER_LDFLAGS` list
holding an unrelated `-ObjC` flag next to `-lfipers`. -/
def objcLfipersDoc : List Char :=
  ("path = libfipers.a;\nbuildSettings = \x7b\n\tOTHER_LDFLAGS = (" ++
    "\n\t\t\"-ObjC\",\n\t\t\"-lfipers\",\n\t);\n\x7d;").toList

/-- Scenario-A skeleton manifest: both section markers, the Frameworks
group, the Frameworks build phase and one settings block, each exactly
once, with the artifact absent. -/
def scenarioDoc : List Char :=
  ("/* Begin PBXBuildFile section */\n/* End PBXBuildFile section */\n" ++
   "/* Begin PBXFileReference section */\n/* End PBXFileReference section */\n" ++
   "\t\t71A9A1607E036E391BA6A301 /* Frameworks */ = \x7b\n\t\t\tisa = PBXGroup;" ++
   "\n\t\t\tchildren = (\n\t\t\t);\n\t\t\tname = Frameworks;\n\t\t\x7d;\n" ++
   "\t\t97C146EB1CF9000F007C117D /* Frameworks */ = \x7b\n\t\t\t" ++
   "isa = PBXFrameworksBuildPhase;\n\t\t\tfiles = (\n\t\t\t);\n\t\t\x7d;\n" ++
   "\t\tbuildSettings = \x7b\n\t\t\t\tPRODUCT_NAME = Runner;\n\t\t\t\x7d;\n").toList

/-- Needle identifying the artifact's file-reference record. -/
def frNeedle : List Char :=
  (" /* libfipers.a */ = \x7bisa = PBXFileReference").toList

/-- Needle identifying the artifact's build-file record. -/
def bfNeedle : List Char :=
  (" /* libfipers.a in Frameworks */ = \x7bisa = PBXBuildFile").toList

/-- Needle identifying the artifact's build-phase membership entry. -/
def phNeedle : List Char := (" /* libfipers.a in Frameworks */,").toList

/-- The library-search-path entry for the destination directory. -/
def lspDest : List Char := ("\"$(PROJECT_DIR)/Frameworks\"").toList

/-- The artifact's full path token. -/
def artifactPathTok : List Char :=
  ("$(PROJECT_DIR)/Frameworks/libfipers.a").toList

/-- An iOS filesystem state with every precondition satisfied and a
marker-free manifest. -/
def iosFsOk : IosFs :=
  { iosDirExists := true
    manifest := some noMarkersDoc
    sourceLib := some (("archive bytes").toList)
    frameworksDirExists := false
    destLib := none
    backup := none
    now := 0 }

/-- An iOS environment whose project root cannot be located. -/
def iosEnvNoRoot : IosEnv :=
  { cwdIsFlutterIos := false
    exampleIsFlutter := false
    buildScriptExists := true
    buildSucceeds := true
    builtLibExists := true
    fs := iosFsOk }

/-- A macOS filesystem state that satisfies every precondition except the
manifest, which is absent. -/
def macFsNoManifest : MacFs :=
  { macosDirExists := true
    sourceLib := some (("dylib bytes").toList)
    frameworksDirExists := false
    destLib := none
    brewSslExists := true
    brewCryptoExists := true
    localSslExists := false
    localCryptoExists := false
    destSsl := false
    destCrypto := false
    manifest := none
    backup := none }

/-- A macOS environment reaching `integrate_library` with no manifest. -/
def macEnvNoManifest : MacEnv :=
  { cwdIsFlutterMacos := true
    exampleIsFlutter := true
    buildScriptExists := true
    buildSucceeds := true
    builtLibExists := true
    fs := macFsNoManifest }

/-- An Android environment in which no project root can be found. -/
def androidEnvNoRoot : AndroidEnv :=
  { argvRoot := none
    detectedRoot := none
    fipersLibDartExists := false
    appBuildGradle := none
    pubspec := none
    cmakeExists := false }

/-! ## Lemmas on the scanning machinery -/

theorem subAll_cons_none {α : Type} (m : List Char → Option (α × List Char))
    (f : α → List Char) (c : Char) (cs : List Char) (h : m (c :: cs) = none) :
    subAll m f (c :: cs) = c :: subAll m f cs := by
  simp [subAll, subAllFuel, h]

theorem subAll_cons_some {α : Type} (m : List Char → Option (α × List Char))
    (f : α → List Char) (c : Char) (cs : List Char) (mat : α)
    (rest : List Char) (h : m (c :: cs) = some (mat, rest)) :
    subAll m f (c :: cs) = f mat ++ subAllFuel m f cs.length rest := by
  simp [subAll, subAllFuel, h]

theorem hasMatch_cons_elim {α : Type} (m : List Char → Option (α × List Char))
    (c : Char) (cs : List Char) (h : hasMatch m (c :: cs) = false) :
    m (c :: cs) = none ∧ hasMatch m cs = false := by
  simp only [hasMatch, Bool.or_eq_false_iff] at h
  exact ⟨Option.not_isSome_iff_eq_none.mp (by simp [h.1]), h.2⟩

theorem subAllFuel_of_no_match {α : Type}
    (m : List Char → Option (α × List Char)) (f : α → List Char) :
    ∀ (s : List Char), hasMatch m s = false →
      ∀ fuel, subAllFuel m f fuel s = s := by
  intro s
  induction s with
  | nil => intro _ fuel; cases fuel <;> simp [subAllFuel]
  | cons c cs ih =>
    intro h fuel
    obtain ⟨h0, h1⟩ := hasMatch_cons_elim m c cs h
    cases fuel with
    | zero => rfl
    | succ fuel => simp [subAllFuel, h0, ih h1 fuel]

theorem subAll_of_no_match {α : Type}
    (m : List Char → Option (α × List Char)) (f : α → List Char)
    (s : List Char) (h : hasMatch m s = false) : subAll m f s = s :=
  subAllFuel_of_no_match m f s h s.length

theorem subAll_append_of_none {α : Type}
    (m : List Char → Option (α × List Char)) (f : α → List Char) :
    ∀ (a r : List Char),
      (∀ i, i < a.length → m ((a ++ r).drop i) = none) →
      subAll m f (a ++ r) = a ++ subAll m f r := by
  intro a
  induction a with
  | nil => intro r _; simp
  | cons c a' ih =>
    intro r h
    have h0 : m (c :: (a' ++ r)) = none := by
      have := h 0 (by simp)
      simpa using this
    have hrec : ∀ i, i < a'.length → m ((a' ++ r).drop i) = none := by
      intro i hi
      have := h (i + 1) (by simpa using Nat.succ_lt_succ hi)
      simpa using this
    rw [List.cons_append, subAll_cons_none m f c (a' ++ r) h0, ih r hrec]
    simp

theorem subAll_decomp {α : Type} (m : List Char → Option (α × List Char))
    (f : α → List Char) (a s2 : List Char) (mat : α) (rest : List Char)
    (hnil : m [] = none)
    (hpre : ∀ i, i < a.length → m ((a ++ s2).drop i) = none)
    (hm : m s2 = some (mat, rest))
    (htail : hasMatch m rest = false) :
    subAll m f (a ++ s2) = a ++ (f mat ++ rest) := by
  rw [subAll_append_of_none m f a s2 hpre]
  cases s2 with
  | nil => rw [hnil] at hm; cases hm
  | cons c cs =>
    rw [subAll_cons_some m f c cs mat rest hm,
      subAllFuel_of_no_match m f rest htail]

theorem containsC_of_isPrefixC (n s : List Char)
    (h : isPrefixC n s = true) : containsC n s = true := by
  cases s with
  | nil => simpa [containsC] using h
  | cons c cs => simp [containsC, h]

theorem isPrefixC_append_left : ∀ (p a b : List Char),
    isPrefixC p a = true → isPrefixC p (a ++ b) = true := by
  intro p
  induction p with
  | nil => intro a b _; rfl
  | cons x ps ih =>
    intro a b h
    cases a with
    | nil => simp [isPrefixC] at h
    | cons c a' =>
      simp only [isPrefixC, Bool.and_eq_true] at h
      simp only [List.cons_append, isPrefixC, Bool.and_eq_true]
      exact ⟨h.1, ih a' b h.2⟩

theorem containsC_append_left (n : List Char) : ∀ (a b : List Char),
    containsC n a = true → containsC n (a ++ b) = true := by
  intro a
  induction a with
  | nil =>
    intro b h
    simp only [containsC] at h
    exact containsC_of_isPrefixC n b (isPrefixC_append_left n [] b h)
  | cons c a' ih =>
    intro b h
    simp only [containsC, Bool.or_eq_true] at h ⊢
    rcases h with h | h
    · exact Or.inl (by simpa using isPrefixC_append_left n (c :: a') b h)
    · exact Or.inr (ih b h)

theorem containsC_append_right (n : List Char) : ∀ (a b : List Char),
    containsC n b = true → containsC n (a ++ b) = true := by
  intro a
  induction a with
  | nil => intro b h; simpa using h
  | cons c a' ih =>
    intro b h
    simp only [List.cons_append, containsC, Bool.or_eq_true]
    exact Or.inr (ih b h)

theorem containsC_cons (n : List Char) (y : Char) (l : List Char)
    (h : containsC n l = true) : containsC n (y :: l) = true := by
  simp [containsC, h]

theorem isPrefixC_append_cases (n : List Char) : ∀ (x : List Char)
    (y : Char) (b' : List Char), isPrefixC n (x ++ y :: b') = true →
    isPrefixC n x = true ∨ n.contains y = true := by
  induction n with
  | nil => intro x _ _ _; exact Or.inl rfl
  | cons p n' ih =>
    intro x y b' h
    cases x with
    | nil =>
      simp only [List.nil_append, isPrefixC, Bool.and_eq_true, beq_iff_eq] at h
      obtain ⟨h1, h2⟩ := h
      subst h1
      exact Or.inr (by simp [List.contains])
    | cons c x' =>
      simp only [List.cons_append, isPrefixC, Bool.and_eq_true] at h
      rcases ih x' y b' h.2 with h' | h'
      · exact Or.inl (by simp [isPrefixC, h.1, h'])
      · exact Or.inr (by simp [List.contains] at h' ⊢; exact Or.inr h')

theorem containsC_append_false (n : List Char) : ∀ (a b : List Char),
    containsC n a = false → containsC n b = false →
    (b = [] ∨ ∃ y b', b = y :: b' ∧ n.contains y = false) →
    containsC n (a ++ b) = false := by
  intro a
  induction a with
  | nil => intro b _ hb _; simpa using hb
  | cons c a' ih =>
    intro b ha hb hy
    simp only [containsC, Bool.or_eq_false_iff] at ha
    simp only [List.cons_append, containsC, Bool.or_eq_false_iff]
    refine ⟨?_, ih b ha.2 hb hy⟩
    rcases hy with rfl | ⟨y, b', rfl, hyn⟩
    · simpa using ha.1
    · by_contra hcon
      rw [Bool.not_eq_false] at hcon
      rcases isPrefixC_append_cases n (c :: a') y b' hcon with h' | h'
      · rw [ha.1] at h'; cases h'
      · rw [hyn] at h'; cases h'

theorem containsC_subAll_insert {α : Type}
    (m : List Char → Option (α × List Char)) (f : α → List Char)
    (n : List Char) (hnil : m [] = none)
    (hf : ∀ x : α, containsC n (f x) = true) :
    ∀ s, hasMatch m s = true → containsC n (subAll m f s) = true := by
  intro s
  induction s with
  | nil => intro h; simp [hasMatch, hnil] at h
  | cons c cs ih =>
    intro h
    cases hm : m (c :: cs) with
    | some v =>
      obtain ⟨mat, rest⟩ := v
      rw [subAll_cons_some m f c cs mat rest hm]
      exact containsC_append_left n (f mat) _ (hf mat)
    | none =>
      rw [subAll_cons_none m f c cs hm]
      simp only [hasMatch, hm, Option.isSome_none, Bool.false_or] at h
      exact containsC_cons n c _ (ih h)

theorem hasMatch_of_containsC {α : Type}
    (m : List Char → Option (α × List Char)) (pat : List Char)
    (hm : ∀ s, isPrefixC pat s = true → (m s).isSome = true) :
    ∀ s, containsC pat s = true → hasMatch m s = true := by
  intro s
  induction s with
  | nil =>
    intro h
    simp only [containsC] at h
    simpa [hasMatch] using hm [] h
  | cons c cs ih =>
    intro h
    simp only [containsC, Bool.or_eq_true] at h
    simp only [hasMatch, Bool.or_eq_true]
    rcases h with h | h
    · exact Or.inl (hm (c :: cs) h)
    · exact Or.inr (ih h)

theorem litFreeBelow_elim (pat s : List Char) (k : Nat)
    (h : litFreeBelow pat s k = true) :
    ∀ i, i < k → isPrefixC pat (s.drop i) = false := by
  intro i hi
  have := (List.all_eq_true.mp h) i (List.mem_range.mpr hi)
  simpa using this

/-! ## Matcher-specific lemmas -/

theorem isPrefixC_self_append : ∀ (p r : List Char),
    isPrefixC p (p ++ r) = true := by
  intro p
  induction p with
  | nil => intro r; rfl
  | cons c p' ih => intro r; simp [isPrefixC, ih r]

theorem takeWhile_append_of (p : Char → Bool) :
    ∀ (xs ys : List Char), (∀ x ∈ xs, p x = true) →
      (ys = [] ∨ ∃ y ys', ys = y :: ys' ∧ p y = false) →
      (xs ++ ys).takeWhile p = xs ∧ (xs ++ ys).dropWhile p = ys := by
  intro xs
  induction xs with
  | nil =>
    intro ys _ hy
    rcases hy with rfl | ⟨y, ys', rfl, hp⟩
    · exact ⟨rfl, rfl⟩
    · simp [List.takeWhile_cons, List.dropWhile_cons, hp]
  | cons x xs' ih =>
    intro ys hx hy
    have hpx : p x = true := hx x (by simp)
    have := ih ys (fun z hz => hx z (by simp [hz])) hy
    simp [List.takeWhile_cons, List.dropWhile_cons, hpx, this.1, this.2]

theorem matchLit_none (pat s : List Char) (h : isPrefixC pat s = false) :
    matchLit pat s = none := by
  simp [matchLit, h]

theorem matchLdfOpen_none (s : List Char) (h : isPrefixC ldLit s = false) :
    matchLdfOpen s = none := by
  simp [matchLdfOpen, h]

theorem matchLdfLfipers_none (s : List Char)
    (h : isPrefixC ldLit s = false) : matchLdfLfipers s = none := by
  simp [matchLdfLfipers, h]

theorem hasMatch_matchLit (pat : List Char) :
    ∀ s, hasMatch (matchLit pat) s = containsC pat s := by
  intro s
  induction s with
  | nil =>
    cases h : isPrefixC pat [] <;> simp [hasMatch, containsC, matchLit, h]
  | cons c cs ih =>
    cases h : isPrefixC pat (c :: cs) <;>
      simp [hasMatch, containsC, matchLit, h, ih]

theorem matchLdfOpen_at (toks b : List Char)
    (ht : ∀ x ∈ toks, (x != ')') = true)
    (hb : b = [] ∨ ∃ y b', b = y :: b' ∧ (y != ')') = false) :
    matchLdfOpen (ldLit ++ (toks ++ b)) = some (ldLit ++ toks, b) := by
  have h1 : isPrefixC ldLit (ldLit ++ (toks ++ b)) = true :=
    isPrefixC_self_append ldLit _
  have h2 := takeWhile_append_of (fun c => c != ')') toks b ht hb
  simp only [matchLdfOpen, h1, if_true, List.drop_left, h2.1]

theorem matchLdfLfipers_at (toks b' : List Char)
    (ht : ∀ x ∈ toks, (x != ')') = true)
    (hlf : containsC lfipersTok toks = true) :
    matchLdfLfipers (ldLit ++ (toks ++ ')' :: b')) =
      some ((ldLit ++ toks) ++ [')'], b') := by
  have h1 : isPrefixC ldLit (ldLit ++ (toks ++ ')' :: b')) = true :=
    isPrefixC_self_append ldLit _
  have h2 := takeWhile_append_of (fun c => c != ')') toks (')' :: b') ht
    (Or.inr ⟨')', b', rfl, by decide⟩)
  simp only [matchLdfLfipers, h1, if_true, List.drop_left, h2.1, h2.2, hlf]

/-! ## Behaviour of the settings-block update on decomposed blocks -/

theorem usb_elif_eq (a toks b : List Char)
    (hfl : containsC flWord (a ++ (ldLit ++ (toks ++ ')' :: b))) = false)
    (hlf : containsC lfWord (a ++ (ldLit ++ (toks ++ ')' :: b))) = false)
    (hlsp : containsC lspWord (a ++ (ldLit ++ (toks ++ ')' :: b))) = false)
    (ht : ∀ x ∈ toks, (x != ')') = true)
    (hpre : litFreeBelow ldLit
      (a ++ (ldLit ++ (toks ++ ')' :: (b ++ lspAdd)))) a.length = true)
    (htail : hasMatch matchLdfOpen (')' :: (b ++ lspAdd)) = false) :
    update_settings_block (a ++ (ldLit ++ (toks ++ ')' :: b))) =
      a ++ ((ldLit ++ toks) ++ (ldIns ++ (')' :: (b ++ lspAdd)))) := by
  have hld : containsC ldWord
      ((a ++ (ldLit ++ (toks ++ ')' :: b))) ++ lspAdd) = true := by
    apply containsC_append_left
    apply containsC_append_right
    exact containsC_of_isPrefixC _ _
      (isPrefixC_append_left ldWord ldLit _ (by decide))
  have hfl2 : containsC flWord
      ((a ++ (ldLit ++ (toks ++ ')' :: b))) ++ lspAdd) = false :=
    containsC_append_false _ _ _ hfl (by decide)
      (Or.inr ⟨'\n', lspAdd.tail, by decide, by decide⟩)
  have hlf2 : containsC lfWord
      ((a ++ (ldLit ++ (toks ++ ')' :: b))) ++ lspAdd) = false :=
    containsC_append_false _ _ _ hlf (by decide)
      (Or.inr ⟨'\n', lspAdd.tail, by decide, by decide⟩)
  have heq : (a ++ (ldLit ++ (toks ++ ')' :: b))) ++ lspAdd
      = a ++ (ldLit ++ (toks ++ ')' :: (b ++ lspAdd))) := by
    simp [List.append_assoc]
  have hsub : subAll matchLdfOpen (fun t => t ++ ldIns)
      ((a ++ (ldLit ++ (toks ++ ')' :: b))) ++ lspAdd) =
      a ++ ((ldLit ++ toks) ++ (ldIns ++ (')' :: (b ++ lspAdd)))) := by
    rw [heq]
    have hd := subAll_decomp matchLdfOpen (fun t => t ++ ldIns) a
      (ldLit ++ (toks ++ ')' :: (b ++ lspAdd))) (ldLit ++ toks)
      (')' :: (b ++ lspAdd)) (by decide)
      (fun i hi => matchLdfOpen_none _ (litFreeBelow_elim _ _ _ hpre i hi))
      (matchLdfOpen_at toks (')' :: (b ++ lspAdd)) ht
        (Or.inr ⟨')', b ++ lspAdd, rfl, by decide⟩))
      htail
    simpa [List.append_assoc] using hd
  simp only [update_settings_block, hlf, Bool.and_false, hlsp, hld, hfl2,
    hlf2, hsub, Bool.not_true, Bool.not_false, Bool.false_and, Bool.true_and,
    if_false, if_true, Bool.false_eq_true, ite_false, ite_true]

theorem patch_already_lfipers (a toks b : List Char)
    (ht : ∀ x ∈ toks, (x != ')') = true)
    (hlf : containsC lfipersTok toks = true)
    (hpre : litFreeBelow ldLit
      (a ++ (ldLit ++ (toks ++ ')' :: b))) a.length = true)
    (htail : hasMatch matchLdfLfipers b = false) :
    patch_already (a ++ (ldLit ++ (toks ++ ')' :: b))) =
      a ++ (canonLdflags ++ b) := by
  have hsub : subAll matchLdfLfipers (fun _ => canonLdflags)
      (a ++ (ldLit ++ (toks ++ ')' :: b))) = a ++ (canonLdflags ++ b) := by
    have hd := subAll_decomp matchLdfLfipers (fun _ => canonLdflags) a
      (ldLit ++ (toks ++ ')' :: b)) ((ldLit ++ toks) ++ [')']) b (by decide)
      (fun i hi => matchLdfLfipers_none _ (litFreeBelow_elim _ _ _ hpre i hi))
      (matchLdfLfipers_at toks b ht hlf) htail
    simpa using hd
  have hflc : containsC flWord (a ++ (canonLdflags ++ b)) = true :=
    containsC_append_right _ _ _ (containsC_append_left _ _ _ (by decide))
  have hlnc : containsC libName (a ++ (canonLdflags ++ b)) = true :=
    containsC_append_right _ _ _ (containsC_append_left _ _ _ (by decide))
  simp only [patch_already, hsub, hflc, hlnc, Bool.not_true, Bool.or_self,
    Bool.false_eq_true, ite_false, if_false]

theorem patch_content_id (s : List Char)
    (h1 : containsC flWord s = true) (h2 : containsC libName s = true)
    (h3 : hasMatch matchLdfLfipers s = false) : patch_content s = s := by
  have hid : patch_already s = s := by
    simp only [patch_already, subAll_of_no_match _ _ s h3, h1, h2,
      Bool.not_true, Bool.or_self, Bool.false_eq_true, ite_false, if_false]
  simp [patch_content, h2, hid]

/-! ## Claim C1 -/

/-- C1 counterexample: for the concrete manifest whose `OTHER_LDFLAGS`
list carries `-lfipers`, running the patch operation twice differs from
running it once — the second run rewrites the list and mangles the
document. -/
theorem c1_idempotence_cex :
    patch_content (patch_content lfipersDoc) ≠ patch_content lfipersDoc := by
  decide

/-- C1 (amended): the patch operation is idempotent on every manifest
whose once-patched form contains the artifact name and the force-load
flag and has no `OTHER_LDFLAGS` list containing `-lfipers`; the second
run then detects the artifact name by substring search and leaves the
document unchanged. -/
theorem c1_idempotence (content : List Char)
    (h1 : containsC flWord (patch_content content) = true)
    (h2 : containsC libName (patch_content content) = true)
    (h3 : hasMatch matchLdfLfipers (patch_content content) = false) :
    patch_content (patch_content content) = patch_content content :=
  patch_content_id (patch_content content) h1 h2 h3

/-- C1 witness: the hypotheses of `c1_idempotence` hold after patching
the single-block manifest, and the second run is the identity. -/
theorem c1_idempotence_witness :
    patch_content (patch_content emptySettingsDoc) =
      patch_content emptySettingsDoc :=
  c1_idempotence emptySettingsDoc (by decide) (by decide) (by decide)

/-! ## Claim C2 -/

/-- C2 counterexample: the concrete manifest has a build-settings block
(the pattern matches), yet after one run the document does not contain
the artifact path at all, because the block already listed `-force_load`
for an unrelated archive and the update is skipped. -/
theorem c2_flag_completeness_cex :
    hasMatch matchBuildSettings foreignForceLoadDoc = true ∧
    containsC libName (patch_content foreignForceLoadDoc) = false := by
  decide

/-- C2 (amended): a build-settings block that does not already mention
`-force_load` or `libfipers` is completed by `update_settings_block`:
when both keys are absent, the search-path list with the destination
directory and the linker list with the force-load token and the artifact
path are appended; when an `OTHER_LDFLAGS = (` list is present (in the
decomposed form below), the force-load token and the artifact path are
spliced into it.  Blocks that already mention those tokens, or that hold
the keys in another shape, are left incomplete. -/
theorem c2_flag_completeness :
    (∀ B : List Char, containsC flWord B = false → containsC lfWord B = false →
      containsC lspWord B = false → containsC ldWord B = false →
      update_settings_block B = (B ++ lspAdd) ++ ldAdd ∧
      containsC lspDest (update_settings_block B) = true ∧
      containsC flWord (update_settings_block B) = true ∧
      containsC artifactPathTok (update_settings_block B) = true) ∧
    (∀ a toks b : List Char,
      containsC flWord (a ++ (ldLit ++ (toks ++ ')' :: b))) = false →
      containsC lfWord (a ++ (ldLit ++ (toks ++ ')' :: b))) = false →
      containsC lspWord (a ++ (ldLit ++ (toks ++ ')' :: b))) = false →
      (∀ x ∈ toks, (x != ')') = true) →
      litFreeBelow ldLit
        (a ++ (ldLit ++ (toks ++ ')' :: (b ++ lspAdd)))) a.length = true →
      hasMatch matchLdfOpen (')' :: (b ++ lspAdd)) = false →
      containsC lspDest
        (update_settings_block (a ++ (ldLit ++ (toks ++ ')' :: b)))) = true ∧
      containsC flWord
        (update_settings_block (a ++ (ldLit ++ (toks ++ ')' :: b)))) = true ∧
      containsC artifactPathTok
        (update_settings_block (a ++ (ldLit ++ (toks ++ ')' :: b)))) = true) := by
  constructor
  · intro B hfl hlf hlsp hld
    have hld2 : containsC ldWord (B ++ lspAdd) = false :=
      containsC_append_false _ _ _ hld (by decide)
        (Or.inr ⟨'\n', lspAdd.tail, by decide, by decide⟩)
    have heq : update_settings_block B = (B ++ lspAdd) ++ ldAdd := by
      simp only [update_settings_block, hlf, Bool.and_false, hlsp, hld2,
        Bool.not_false, Bool.false_eq_true, ite_false, ite_true, if_true,
        if_false]
    refine ⟨heq, ?_, ?_, ?_⟩ <;> rw [heq]
    · exact containsC_append_left _ _ _
        (containsC_append_right _ _ _ (by decide))
    · exact containsC_append_right _ _ _ (by decide)
    · exact containsC_append_right _ _ _ (by decide)
  · intro a toks b hfl hlf hlsp ht hpre htail
    have heq := usb_elif_eq a toks b hfl hlf hlsp ht hpre htail
    refine ⟨?_, ?_, ?_⟩ <;> rw [heq]
    · exact containsC_append_right _ _ _ (containsC_append_right _ _ _
        (containsC_append_right _ _ _ (containsC_cons _ _ _
          (containsC_append_right _ _ _ (by decide)))))
    · exact containsC_append_right _ _ _ (containsC_append_right _ _ _
        (containsC_append_left _ _ _ (by decide)))
    · exact containsC_append_right _ _ _ (containsC_append_right _ _ _
        (containsC_append_left _ _ _ (by decide)))

/-- C2 witness: both cases of `c2_flag_completeness` at concrete blocks,
with every hypothesis discharged by evaluation. -/
theorem c2_flag_completeness_witness :
    update_settings_block (("PRODUCT_NAME = Runner;").toList) =
      ((("PRODUCT_NAME = Runner;").toList ++ lspAdd) ++ ldAdd) ∧
    containsC artifactPathTok
      (update_settings_block ((("X = 1;\n\t").toList ++
        (ldLit ++ ((("\"-ObjC\", ").toList) ++ ')' :: ((";").toList)))))) =
      true :=
  ⟨(c2_flag_completeness.1 (("PRODUCT_NAME = Runner;").toList)
      (by decide) (by decide) (by decide) (by decide)).1,
   (c2_flag_completeness.2 (("X = 1;\n\t").toList) (("\"-ObjC\", ").toList)
      ((";").toList) (by decide) (by decide) (by decide) (by decide)
      (by decide) (by decide)).2.2⟩

/-! ## Claim C6 -/

/-- C6 counterexample: the manifest contains the artifact name and an
`OTHER_LDFLAGS` list with the unrelated `-ObjC` flag next to `-lfipers`;
a re-run replaces the whole list and the `-ObjC` token is lost. -/
theorem c6_preserve_flags_cex :
    containsC (("-ObjC").toList) objcLfipersDoc = true ∧
    containsC libName objcLfipersDoc = true ∧
    containsC (("-ObjC").toList) (patch_content objcLfipersDoc) = false := by
  decide

/-- C6 (amended): on first integration the settings update appends the
force-load tokens after the pre-existing `OTHER_LDFLAGS` tokens, keeping
them contiguous and in order; but on a re-run in which the artifact name
is present and the list holds `-lfipers`, the whole list is replaced by
the canonical three-token list, discarding the unrelated tokens. -/
theorem c6_preserve_flags :
    (∀ a toks b : List Char,
      containsC flWord (a ++ (ldLit ++ (toks ++ ')' :: b))) = false →
      containsC lfWord (a ++ (ldLit ++ (toks ++ ')' :: b))) = false →
      containsC lspWord (a ++ (ldLit ++ (toks ++ ')' :: b))) = false →
      (∀ x ∈ toks, (x != ')') = true) →
      litFreeBelow ldLit
        (a ++ (ldLit ++ (toks ++ ')' :: (b ++ lspAdd)))) a.length = true →
      hasMatch matchLdfOpen (')' :: (b ++ lspAdd)) = false →
      update_settings_block (a ++ (ldLit ++ (toks ++ ')' :: b))) =
        a ++ ((ldLit ++ toks) ++ (ldIns ++ (')' :: (b ++ lspAdd))))) ∧
    (∀ a toks b : List Char,
      containsC libName (a ++ (ldLit ++ (toks ++ ')' :: b))) = true →
      (∀ x ∈ toks, (x != ')') = true) →
      containsC lfipersTok toks = true →
      litFreeBelow ldLit
        (a ++ (ldLit ++ (toks ++ ')' :: b))) a.length = true →
      hasMatch matchLdfLfipers b = false →
      patch_content (a ++ (ldLit ++ (toks ++ ')' :: b))) =
        a ++ (canonLdflags ++ b)) := by
  constructor
  · intro a toks b hfl hlf hlsp ht hpre htail
    exact usb_elif_eq a toks b hfl hlf hlsp ht hpre htail
  · intro a toks b hlib ht hlf hpre htail
    have h := patch_already_lfipers a toks b ht hlf hpre htail
    simp [patch_content, hlib, h]

/-- C6 witness: both cases of `c6_preserve_flags` at concrete inputs. -/
theorem c6_preserve_flags_witness :
    update_settings_block ((("PAD = 0;\n").toList ++
      (ldLit ++ ((("\"-Wl\", ").toList) ++ ')' :: ((";\n").toList))))) =
      (("PAD = 0;\n").toList ++
        ((ldLit ++ (("\"-Wl\", ").toList) ) ++
          (ldIns ++ (')' :: (((";\n").toList) ++ lspAdd))))) ∧
    patch_content ((("path = libfipers.a;\n").toList ++
      (ldLit ++ ((("\"-ObjC\", \"-lfipers\"").toList) ++
        ')' :: ((";\n").toList))))) =
      (("path = libfipers.a;\n").toList ++
        (canonLdflags ++ ((";\n").toList))) :=
  ⟨c6_preserve_flags.1 (("PAD = 0;\n").toList) (("\"-Wl\", ").toList)
      ((";\n").toList) (by decide) (by decide) (by decide) (by decide)
      (by decide) (by decide),
   c6_preserve_flags.2 (("path = libfipers.a;\n").toList)
      (("\"-ObjC\", \"-lfipers\"").toList) ((";\n").toList)
      (by decide) (by decide) (by decide) (by decide) (by decide)⟩

/-! ## Claim C3 -/

/-- C3: when a section marker is absent the corresponding record
insertion substitutes nothing and the document is unchanged, and the
operation still completes reporting success whenever the path
preconditions hold, whatever the manifest contains. -/
theorem c3_silent_skip :
    (∀ s : List Char, containsC endFileRefMarker s = false →
      insert_file_ref s = s) ∧
    (∀ s : List Char, containsC endBuildFileMarker s = false →
      insert_build_file s = s) ∧
    (∀ (p : String) (fs : IosFs), fs.iosDirExists = true →
      fs.manifest.isSome = true → fs.sourceLib.isSome = true →
      (integrate_library p fs).2.2 = true) := by
  refine ⟨?_, ?_, ?_⟩
  · intro s h
    exact subAll_of_no_match _ _ s (by rw [hasMatch_matchLit]; exact h)
  · intro s h
    exact subAll_of_no_match _ _ s (by rw [hasMatch_matchLit]; exact h)
  · intro p fs h1 h2 h3
    obtain ⟨c, hc⟩ := Option.isSome_iff_exists.mp h2
    obtain ⟨l, hl⟩ := Option.isSome_iff_exists.mp h3
    simp only [integrate_library, h1, hc, hl, Bool.not_true,
      Bool.false_eq_true, ite_false, if_false]
    split <;> rfl

/-- C3 witness: the marker-free manifest is untouched by both record
insertions, and a run on it completes with success. -/
theorem c3_silent_skip_witness :
    insert_file_ref noMarkersDoc = noMarkersDoc ∧
    insert_build_file noMarkersDoc = noMarkersDoc ∧
    (integrate_library ("fipers/ios/build/libfipers.a") iosFsOk).2.2 =
      true :=
  ⟨c3_silent_skip.1 noMarkersDoc (by decide),
   c3_silent_skip.2.1 noMarkersDoc (by decide),
   c3_silent_skip.2.2 ("fipers/ios/build/libfipers.a") iosFsOk rfl rfl rfl⟩

/-! ## Claim C4 -/

/-- C4 counterexample: on a manifest without the section markers one
application of the patch operation leaves the document unchanged and
produces zero file-reference records for the artifact, not exactly
one. -/
theorem c4_uniqueness_cex :
    patch_content noMarkersDoc = noMarkersDoc ∧
    countC frNeedle (patch_content noMarkersDoc) = 0 := by
  decide

/-- C4 (amended): on the scenario-A skeleton manifest, after any positive
number of applications the document holds exactly one file-reference
record, one build-file record and one phase-membership entry for the
artifact. -/
theorem c4_uniqueness (n : Nat) (hn : 1 ≤ n) :
    countC frNeedle (patch_content^[n] scenarioDoc) = 1 ∧
    countC bfNeedle (patch_content^[n] scenarioDoc) = 1 ∧
    countC phNeedle (patch_content^[n] scenarioDoc) = 1 := by
  have hfix : patch_content (patch_content scenarioDoc) =
      patch_content scenarioDoc := by decide
  have hcount : countC frNeedle (patch_content scenarioDoc) = 1 ∧
      countC bfNeedle (patch_content scenarioDoc) = 1 ∧
      countC phNeedle (patch_content scenarioDoc) = 1 := by decide
  obtain ⟨k, rfl⟩ : ∃ k, n = k + 1 :=
    ⟨n - 1, (Nat.succ_pred_eq_of_pos hn).symm⟩
  have hiter : ∀ j, patch_content^[j] (patch_content scenarioDoc) =
      patch_content scenarioDoc := by
    intro j
    induction j with
    | zero => rfl
    | succ j ih => rw [Function.iterate_succ_apply', ih, hfix]
  rw [Function.iterate_succ_apply, hiter k]
  exact hcount

/-- C4 witness: the amended uniqueness at two applications. -/
theorem c4_uniqueness_witness :
    countC frNeedle (patch_content^[2] scenarioDoc) = 1 ∧
    countC bfNeedle (patch_content^[2] scenarioDoc) = 1 ∧
    countC phNeedle (patch_content^[2] scenarioDoc) = 1 :=
  c4_uniqueness 2 (by decide)

/-! ## Claim C5 -/

theorem sha1Hexdigest_length (msg : List Nat) :
    (sha1Hexdigest msg).length = 40 := by
  unfold sha1Hexdigest
  rcases h : sha1 msg with ⟨a, b, c, d, e⟩
  simp [h, hex8]

theorem generate_id_length (text : List Char) :
    (generate_id text).length = 24 := by
  unfold generate_id
  rw [List.length_map, List.length_take, sha1Hexdigest_length]
  decide

/-- C5: the identifiers are the SHA-1 of the concatenated text, truncated
to the first 24 hexadecimal characters and upper-cased; the macOS inlined
computation agrees with the iOS `generate_id` on every input, ids always
have 24 characters, and the two concrete ids of the iOS artifact equal
the true SHA-1 prefixes, fixed values reproduced on every run. -/
theorem c5_deterministic_ids :
    (∀ name : List Char,
      macos_sha_id (name ++ ("_file_ref").toList) =
        generate_id (name ++ ("_file_ref").toList) ∧
      macos_sha_id (name ++ ("_build_file").toList) =
        generate_id (name ++ ("_build_file").toList)) ∧
    (∀ text : List Char, generate_id text =
      ((sha1Hexdigest (utf8Encode text)).take 24).map upChar) ∧
    (∀ text : List Char, (generate_id text).length = 24) ∧
    file_ref_id = ("30547B148C487C04BC4E818D").toList ∧
    build_file_id = ("E6805C116B180748441DD57A").toList :=
  ⟨fun _ => ⟨rfl, rfl⟩, fun _ => rfl, generate_id_length,
    by decide, by decide⟩

/-! ## Claim C7 -/

/-- C7 counterexample: with every other precondition satisfied but the
manifest file absent, the macOS script exits with status 0 and prints the
success summary, although the claim requires a non-zero exit and no
success report. -/
theorem c7_exit_codes_cex :
    (mac_main macEnvNoManifest).1 = 0 ∧
    Ev.message ("✅ Successfully integrated libfipers.dylib into macOS project!")
      ∈ (mac_main macEnvNoManifest).2 := by
  decide

/-- C7 (amended): every listed precondition failure of the iOS script
(undetectable project root, failing build, missing built artifact,
missing iOS directory, missing manifest, missing source artifact) exits
with status 1 and prints a diagnostic; the macOS script does the same for
a missing macOS directory or artifact, but a missing macOS manifest is
skipped silently: the run exits 0 and still reports success; the Android
script exits 1 when no project root is found. -/
theorem c7_exit_codes :
    (∀ env : IosEnv, env.cwdIsFlutterIos = false →
      env.exampleIsFlutter = false → (ios_main env).1 = 1 ∧
      Ev.message ("Error: This script must be run from a Flutter project root")
        ∈ (ios_main env).2) ∧
    (∀ env : IosEnv, env.cwdIsFlutterIos = true →
      env.buildScriptExists = true → env.buildSucceeds = false →
      (ios_main env).1 = 1 ∧
      Ev.message ("Error building library: build failure output")
        ∈ (ios_main env).2) ∧
    (∀ env : IosEnv, env.cwdIsFlutterIos = true →
      env.buildSucceeds = true → env.builtLibExists = false →
      (ios_main env).1 = 1 ∧
      Ev.message ("Error: Library not found at fipers/ios/build/libfipers.a")
        ∈ (ios_main env).2) ∧
    (∀ env : IosEnv, env.cwdIsFlutterIos = true →
      env.buildSucceeds = true → env.builtLibExists = true →
      env.fs.iosDirExists = false → (ios_main env).1 = 1 ∧
      Ev.message ("Error: iOS directory not found") ∈ (ios_main env).2) ∧
    (∀ env : IosEnv, env.cwdIsFlutterIos = true →
      env.buildSucceeds = true → env.builtLibExists = true →
      env.fs.iosDirExists = true → env.fs.manifest = none →
      (ios_main env).1 = 1 ∧
      Ev.message ("Error: Xcode project not found at " ++ xcodeProjPath)
        ∈ (ios_main env).2) ∧
    (∀ env : IosEnv, ∀ c : List Char, env.cwdIsFlutterIos = true →
      env.buildSucceeds = true → env.builtLibExists = true →
      env.fs.iosDirExists = true → env.fs.manifest = some c →
      env.fs.sourceLib = none → (ios_main env).1 = 1 ∧
      Ev.message ("Error: Library not found at " ++
        ("fipers/ios/build/libfipers.a")) ∈ (ios_main env).2) ∧
    (∀ env : MacEnv, env.cwdIsFlutterMacos = true →
      env.buildScriptExists = true → env.buildSucceeds = false →
      (mac_main env).1 = 1 ∧
      Ev.message ("Error building library: build failure output")
        ∈ (mac_main env).2) ∧
    (∀ env : MacEnv, env.cwdIsFlutterMacos = true →
      env.buildSucceeds = true → env.builtLibExists = false →
      (mac_main env).1 = 1 ∧
      Ev.message ("Error: Library not found at fipers/macos/build/libfipers.dylib")
        ∈ (mac_main env).2) ∧
    (∀ env : MacEnv, env.cwdIsFlutterMacos = true →
      env.buildSucceeds = true → env.builtLibExists = true →
      env.fs.macosDirExists = false → (mac_main env).1 = 1 ∧
      Ev.message ("Error: macOS directory not found") ∈ (mac_main env).2) ∧
    (∀ env : MacEnv, env.cwdIsFlutterMacos = true →
      env.buildSucceeds = true → env.builtLibExists = true →
      env.fs.macosDirExists = true → env.fs.sourceLib = none →
      (mac_main env).1 = 1 ∧
      Ev.message ("Error: Library not found at " ++
        ("fipers/macos/build/libfipers.dylib")) ∈ (mac_main env).2) ∧
    (∀ env : MacEnv, ∀ l : List Char, env.cwdIsFlutterMacos = true →
      env.buildSucceeds = true → env.builtLibExists = true →
      env.fs.macosDirExists = true → env.fs.sourceLib = some l →
      env.fs.manifest = none → (mac_main env).1 = 0 ∧
      Ev.message ("✅ Successfully integrated libfipers.dylib into macOS project!")
        ∈ (mac_main env).2) ∧
    (∀ env : AndroidEnv, env.argvRoot = none → env.detectedRoot = none →
      (android_main env).1 = 1 ∧
      Ev.message ("❌ Error: Could not find Flutter project root (pubspec.yaml not found)")
        ∈ (android_main env).2) := by
  refine ⟨?_, ?_, ?_, ?_, ?_, ?_, ?_, ?_, ?_, ?_, ?_, ?_⟩
  · intro env h1 h2
    constructor <;> simp [ios_main, h1, h2]
  · intro env h1 h2 h3
    constructor <;> simp [ios_main, h1, h2, h3]
  · intro env h1 h2 h3
    constructor <;> (cases hb : env.buildScriptExists <;>
      simp [ios_main, h1, h2, h3, hb])
  · intro env h1 h2 h3 h4
    constructor <;> (cases hb : env.buildScriptExists <;>
      simp [ios_main, integrate_library, h1, h2, h3, h4, hb])
  · intro env h1 h2 h3 h4 h5
    constructor <;> (cases hb : env.buildScriptExists <;>
      simp [ios_main, integrate_library, h1, h2, h3, h4, h5, hb])
  · intro env c h1 h2 h3 h4 h5 h6
    constructor <;> (cases hb : env.buildScriptExists <;>
      simp [ios_main, integrate_library, h1, h2, h3, h4, h5, h6, hb])
  · intro env h1 h2 h3
    constructor <;> simp [mac_main, h1, h2, h3]
  · intro env h1 h2 h3
    constructor <;> (cases hb : env.buildScriptExists <;>
      simp [mac_main, h1, h2, h3, hb])
  · intro env h1 h2 h3 h4
    constructor <;> (cases hb : env.buildScriptExists <;>
      simp [mac_main, mac_integrate_library, h1, h2, h3, h4, hb])
  · intro env h1 h2 h3 h4 h5
    constructor <;> (cases hb : env.buildScriptExists <;>
      simp [mac_main, mac_integrate_library, h1, h2, h3, h4, h5, hb])
  · intro env l h1 h2 h3 h4 h5 h6
    constructor <;> (cases hb : env.buildScriptExists <;>
      simp [mac_main, mac_integrate_library, h1, h2, h3, h4, h5, h6, hb])
  · intro env h1 h2
    constructor <;> simp [android_main, h1, h2]

/-- C7 witness: the amended statement at three concrete environments:
detection failure on iOS exits 1 with its diagnostic, the
missing-manifest macOS run exits 0 with the success report, and the
rootless Android run exits 1. -/
theorem c7_exit_codes_witness :
    ((ios_main iosEnvNoRoot).1 = 1 ∧
      Ev.message ("Error: This script must be run from a Flutter project root")
        ∈ (ios_main iosEnvNoRoot).2) ∧
    (mac_main macEnvNoManifest).1 = 0 ∧
    (android_main androidEnvNoRoot).1 = 1 :=
  ⟨c7_exit_codes.1 iosEnvNoRoot rfl rfl,
   (c7_exit_codes.2.2.2.2.2.2.2.2.2.2.1 macEnvNoManifest
      (("dylib bytes").toList) rfl rfl rfl rfl rfl rfl).1,
   (c7_exit_codes.2.2.2.2.2.2.2.2.2.2.2 androidEnvNoRoot rfl rfl).1⟩

/-! ## Claim C8 -/

theorem backup_before_write_append (mp bp : String) :
    ∀ (xs ys : List Ev), xs.all (bbwNeutral mp bp) = true →
      backup_before_write mp bp (xs ++ ys) =
        backup_before_write mp bp ys := by
  intro xs
  induction xs with
  | nil => intro ys _; rfl
  | cons e xs' ih =>
    intro ys h
    simp only [List.all_cons, Bool.and_eq_true] at h
    cases e with
    | copyFile src dst =>
      have hh := h.1
      simp only [bbwNeutral, Bool.not_eq_true'] at hh
      simp [backup_before_write, hh, ih ys h.2]
    | writeFile q c =>
      have hh := h.1
      simp only [bbwNeutral, Bool.not_eq_true'] at hh
      simp [backup_before_write, hh, ih ys h.2]
    | mkdirP q => simp [backup_before_write, ih ys h.2]
    | deleteFile q => simp [backup_before_write, ih ys h.2]
    | subprocRun q => simp [backup_before_write, ih ys h.2]
    | message q => simp [backup_before_write, ih ys h.2]

/-- C8 counterexample: the backup path is the manifest path with the
fixed `.backup` suffix; it contains no digit, hence no timestamp, and two
runs at different clock values produce identical traces and backups. -/
theorem c8_backup_cex :
    backupPath = xcodeProjPath ++ (".backup") ∧
    (backupPath.toList.all (fun c => !(c.isDigit))) = true ∧
    (integrate_library ("fipers/ios/build/libfipers.a")
        { iosFsOk with now := 0 }).2 =
      (integrate_library ("fipers/ios/build/libfipers.a")
        { iosFsOk with now := 1 }).2 := by
  refine ⟨rfl, by decide, by decide⟩

/-- C8 (amended): in every mutating run of the iOS or macOS script the
backup copy of the manifest is created before any write to the manifest,
at the fixed `.backup` path, and after the run the backup holds exactly
the pre-patch document. -/
theorem c8_backup :
    (∀ (p : String) (fs : IosFs) (content lib : List Char),
      fs.iosDirExists = true → fs.manifest = some content →
      fs.sourceLib = some lib →
      (integrate_library p fs).1.backup = some content ∧
      backup_before_write xcodeProjPath backupPath
        (integrate_library p fs).2.1 = true) ∧
    (∀ (p : String) (gs : MacFs) (content lib : List Char),
      gs.macosDirExists = true → gs.manifest = some content →
      gs.sourceLib = some lib →
      (mac_integrate_library p gs).1.backup = some content ∧
      backup_before_write macXcodeProjPath macBackupPath
        (mac_integrate_library p gs).2.1 = true) := by
  have e1 : ((destLibPath : String) == backupPath) = false := by decide
  have e2 : ((xcodeProjPath : String) == xcodeProjPath) = true := by decide
  have e3 : ((backupPath : String) == backupPath) = true := by decide
  have m1 : ((macDestLibPath : String) == macBackupPath) = false := by
    decide
  have m2 : (("macos/Frameworks/libssl.3.dylib" : String) ==
      macBackupPath) = false := by decide
  have m3 : (("macos/Frameworks/libcrypto.3.dylib" : String) ==
      macBackupPath) = false := by decide
  have m4 : ((macXcodeProjPath : String) == macXcodeProjPath) = true := by
    decide
  have m5 : ((macBackupPath : String) == macBackupPath) = true := by
    decide
  constructor
  · intro p fs content lib h1 h2 h3
    constructor
    · simp only [integrate_library, h1, h2, h3, Bool.not_true,
        Bool.false_eq_true, ite_false, if_false]
      split <;> rfl
    · simp only [integrate_library, h1, h2, h3, Bool.not_true,
        Bool.false_eq_true, ite_false, if_false]
      split <;>
        simp [backup_before_write, e1, e2, e3, Bool.and_false]
  · intro p gs content lib h1 h2 h3
    have ha : (macCopyEvs p gs).all
        (bbwNeutral macXcodeProjPath macBackupPath) = true := by
      cases hd : gs.destLib.isSome <;>
        simp [macCopyEvs, hd, bbwNeutral, m1, Bool.and_false]
    have hb : (macSslEvs gs).all
        (bbwNeutral macXcodeProjPath macBackupPath) = true := by
      cases hs : macSslAvail gs <;> cases hds : gs.destSsl <;>
        simp [macSslEvs, hs, hds, bbwNeutral, m2, Bool.and_false]
    have hc : (macCryptoEvs gs).all
        (bbwNeutral macXcodeProjPath macBackupPath) = true := by
      cases hcr : macCryptoAvail gs <;> cases hdc : gs.destCrypto <;>
        simp [macCryptoEvs, hcr, hdc, bbwNeutral, m3, Bool.and_false]
    have hd : macRpathEvs.all
        (bbwNeutral macXcodeProjPath macBackupPath) = true := by decide
    constructor
    · simp only [mac_integrate_library, h1, h2, h3, Bool.not_true,
        Bool.false_eq_true, ite_false, if_false]
      split
      · split <;> rfl
      · rfl
    · simp only [mac_integrate_library, h1, h2, h3, Bool.not_true,
        Bool.false_eq_true, ite_false, if_false]
      split
      · split <;>
          (simp only [List.append_assoc]
           rw [backup_before_write_append _ _ _ _ ha,
             backup_before_write_append _ _ _ _ hb,
             backup_before_write_append _ _ _ _ hc,
             backup_before_write_append _ _ _ _ hd]
           simp [macBackupEvs, backup_before_write, m4, m5])
      · simp only [List.append_assoc]
        rw [backup_before_write_append _ _ _ _ ha,
          backup_before_write_append _ _ _ _ hb,
          backup_before_write_append _ _ _ _ hc,
          backup_before_write_append _ _ _ _ hd]
        simp [macBackupEvs, backup_before_write, m4, m5]

/-- C8 witness: the amended backup invariant at a concrete state for both
scripts. -/
theorem c8_backup_witness :
    (integrate_library ("fipers/ios/build/libfipers.a") iosFsOk).1.backup =
      some noMarkersDoc ∧
    backup_before_write xcodeProjPath backupPath
      (integrate_library ("fipers/ios/build/libfipers.a") iosFsOk).2.1 =
      true ∧
    backup_before_write macXcodeProjPath macBackupPath
      (mac_integrate_library ("fipers/macos/build/libfipers.dylib")
        { macFsNoManifest with manifest := some noMarkersDoc }).2.1 =
      true :=
  ⟨(c8_backup.1 ("fipers/ios/build/libfipers.a") iosFsOk noMarkersDoc
      (("archive bytes").toList) rfl rfl rfl).1,
   (c8_backup.1 ("fipers/ios/build/libfipers.a") iosFsOk noMarkersDoc
      (("archive bytes").toList) rfl rfl rfl).2,
   (c8_backup.2 ("fipers/macos/build/libfipers.dylib")
      { macFsNoManifest with manifest := some noMarkersDoc } noMarkersDoc
      (("dylib bytes").toList) rfl rfl rfl).2⟩

/-! ## Claim C9 -/

/-- C9 counterexample: the destination Frameworks directory does not hold
the artifact before the run, and the run itself places it there — the
operation performs the copy and changes the destination directory,
contradicting the claimed precondition and frame. -/
theorem c9_no_copy_cex :
    iosFsOk.destLib = none ∧
    (integrate_library ("fipers/ios/build/libfipers.a") iosFsOk).1.destLib ≠
      iosFsOk.destLib := by
  refine ⟨rfl, by decide⟩

/-- C9 (amended): `integrate_library` itself copies the artifact into the
destination Frameworks directory, creating the directory if needed,
before patching; the manifest surgery writes files only at the manifest
path.  The macOS variant copies its artifact likewise. -/
theorem c9_copy_behavior :
    (∀ (p : String) (fs : IosFs) (content lib : List Char),
      fs.iosDirExists = true → fs.manifest = some content →
      fs.sourceLib = some lib →
      (integrate_library p fs).1.destLib = some lib ∧
      (integrate_library p fs).1.frameworksDirExists = true ∧
      writesOnlyTo xcodeProjPath (integrate_library p fs).2.1 = true) ∧
    (∀ (p : String) (gs : MacFs) (lib : List Char),
      gs.macosDirExists = true → gs.sourceLib = some lib →
      (mac_integrate_library p gs).1.destLib = some lib) := by
  have e2 : ((xcodeProjPath : String) == xcodeProjPath) = true := by decide
  constructor
  · intro p fs content lib h1 h2 h3
    refine ⟨?_, ?_, ?_⟩ <;>
      (simp only [integrate_library, h1, h2, h3, Bool.not_true,
        Bool.false_eq_true, ite_false, if_false]
       split <;> simp [writesOnlyTo, e2])
  · intro p gs lib h1 h2
    simp only [mac_integrate_library, h1, h2, Bool.not_true,
      Bool.false_eq_true, ite_false, if_false]
    cases hm : gs.manifest with
    | none => rfl
    | some c =>
      simp only [hm]
      split
      · split <;> rfl
      · rfl

/-- C9 witness: the amended behaviour at the concrete all-preconditions
state. -/
theorem c9_copy_behavior_witness :
    (integrate_library ("fipers/ios/build/libfipers.a") iosFsOk).1.destLib =
      some (("archive bytes").toList) ∧
    writesOnlyTo xcodeProjPath
      (integrate_library ("fipers/ios/build/libfipers.a") iosFsOk).2.1 =
      true ∧
    (mac_integrate_library ("fipers/macos/build/libfipers.dylib")
        macFsNoManifest).1.destLib = some (("dylib bytes").toList) :=
  ⟨(c9_copy_behavior.1 ("fipers/ios/build/libfipers.a") iosFsOk
      noMarkersDoc (("archive bytes").toList) rfl rfl rfl).1,
   (c9_copy_behavior.1 ("fipers/ios/build/libfipers.a") iosFsOk
      noMarkersDoc (("archive bytes").toList) rfl rfl rfl).2.2,
   c9_copy_behavior.2 ("fipers/macos/build/libfipers.dylib")
      macFsNoManifest (("dylib bytes").toList) rfl rfl⟩

/-! ## Claim C10 -/

theorem verify_cmake_read_only (env : AndroidEnv) :
    ((verify_cmake_integration env).2).all evReadOnly = true := by
  cases h : env.appBuildGradle with
  | none => simp [verify_cmake_integration, h, evReadOnly]
  | some c =>
    simp only [verify_cmake_integration, h]
    split <;> simp [evReadOnly]

theorem android_tail_read_only (env : AndroidEnv) :
    (android_tail env).all evReadOnly = true := by
  simp [android_tail, check_openssl_for_android, List.all_append,
    evReadOnly, verify_cmake_read_only env]

/-- C10: for every environment, the Android integration script emits
console messages only — it never creates, writes, copies or deletes a
file, even when it announces that it would add the CMake integration. -/
theorem c10_android_read_only (env : AndroidEnv) :
    ((android_main env).2).all evReadOnly = true := by
  rcases env with ⟨argv, droot, flib, abg, pub, cmake⟩
  cases argv <;> cases droot <;> cases flib <;> cases abg <;> cases pub <;>
    cases cmake <;>
    simp_all [android_main, androidRootWarn, evReadOnly,
      List.all_append, android_tail_read_only] <;>
    (split <;> simp [evReadOnly])

/-- C10 has no hypothesis, but its universal statement is exercised here
at the concrete rootless environment. -/
theorem c10_android_read_only_witness :
    ((android_main androidEnvNoRoot).2).all evReadOnly = true :=
  c10_android_read_only androidEnvNoRoot

end Fipers
